import Mathlib

/-!
Verification of the figma-ppt slide builder (`build-slides.py`) and the
local preview server orchestrator (`serve-and-capture.py`).

The Python scripts manipulate JSON-like dynamic values (dicts, lists,
strings, ints).  We embed those values as the inductive type `Value` and
translate each Python function into a Lean function over `Value`,
returning `Except String _` wherever the Python code can raise
(AttributeError / TypeError / ValueError / KeyError / IndexError).
String templates (f-strings) become explicit concatenations of the
literal chunks of the source templates.  Braces and apostrophes inside
string literals are written with the escapes \x7b, \x7d and \x27.
-/

namespace FigmaPpt

/-- JSON-like dynamic values: the data the Python scripts manipulate.
Dicts are modelled as insertion-ordered association lists. -/
inductive Value where
  | str : String → Value
  | num : Int → Value
  | bool : Bool → Value
  | null : Value
  | list : List Value → Value
  | obj : List (String × Value) → Value

/-- Python truthiness (`if v:`): empty strings, zero, empty containers,
`False` and `None` are falsy. -/
def Value.truthy : Value → Bool
  | .str s => !s.isEmpty
  | .num n => decide (n ≠ 0)
  | .bool b => b
  | .null => false
  | .list xs => !xs.isEmpty
  | .obj fs => !fs.isEmpty

mutual

/-- Python `repr(v)` (approximation: strings are wrapped in single
quotes without inner escaping; the scripts only ever rely on `repr` of
strings free of quotes). -/
def Value.pyRepr : Value → String
  | .str s => "\x27" ++ s ++ "\x27"
  | .num n => toString n
  | .bool b => if b then "True" else "False"
  | .null => "None"
  | .list xs => "[" ++ String.intercalate ", " (pyReprList xs) ++ "]"
  | .obj fs => "\x7b" ++ String.intercalate ", " (pyReprFields fs) ++ "\x7d"

def pyReprList : List Value → List String
  | [] => []
  | x :: xs => x.pyRepr :: pyReprList xs

def pyReprFields : List (String × Value) → List String
  | [] => []
  | (k, v) :: fs => ("\x27" ++ k ++ "\x27: " ++ v.pyRepr) :: pyReprFields fs

end

/-- Python `str(v)`, as used by f-string interpolation: identity on
strings, `repr`-like elsewhere. -/
def Value.pyStr : Value → String
  | .str s => s
  | v => v.pyRepr

/-- Python `c.get(k, d)`: only dicts have `.get`; any other receiver
raises AttributeError. -/
def pyGetD (c : Value) (k : String) (d : Value) : Except String Value :=
  match c with
  | .obj fs => .ok ((List.lookup k fs).getD d)
  | _ => .error "AttributeError: get"

/-- Python `c[k]` on a dict: KeyError when absent, TypeError on a
non-dict receiver. -/
def pyIndex (c : Value) (k : String) : Except String Value :=
  match c with
  | .obj fs =>
    match List.lookup k fs with
    | some v => .ok v
    | none => .error "KeyError"
  | _ => .error "TypeError: not subscriptable"

/-- Python iteration (`for x in v`): lists yield elements, strings yield
one-character strings, dicts yield their keys; ints, bools and `None`
raise TypeError. -/
def Value.pyIter : Value → Except String (List Value)
  | .list xs => .ok xs
  | .str s => .ok (s.toList.map fun ch => .str ch.toString)
  | .obj fs => .ok (fs.map fun kv => .str kv.1)
  | _ => .error "TypeError: not iterable"

/-- ASCII case mapping of `str.upper()` (every type tag and font name
the scripts compare is ASCII), written char-wise so the kernel can
evaluate it. -/
def strUpper (s : String) : String :=
  ⟨s.data.map Char.toUpper⟩

/-- ASCII case mapping of `str.lower()`, char-wise. -/
def strLower (s : String) : String :=
  ⟨s.data.map Char.toLower⟩

/-- Python `v.upper()`: strings only. -/
def pyUpper : Value → Except String String
  | .str s => .ok (strUpper s)
  | _ => .error "AttributeError: upper"

/-- Left-to-right non-overlapping replacement, with fuel bounding the
scan length so the recursion is structural. -/
def replaceAux (old new : List Char) : Nat → List Char → List Char
  | _, [] => []
  | 0, s => s
  | fuel + 1, c :: t =>
    if List.isPrefixOf old (c :: t) then
      new ++ replaceAux old new fuel (List.drop old.length (c :: t))
    else c :: replaceAux old new fuel t

/-- Python `s.replace(old, new)` (including the empty-`old` edge case,
which interleaves `new` around every character). -/
def pyReplace (s old new : String) : String :=
  match old.data with
  | [] => new ++ String.join (s.data.map fun c => c.toString ++ new)
  | _ => ⟨replaceAux old.data new.data s.data.length s.data⟩

/-- Lexicographic comparison of char lists by code point, the order
Python `sorted()` uses on strings. -/
def listLeB : List Char → List Char → Bool
  | [], _ => true
  | _ :: _, [] => false
  | a :: as, b :: bs =>
    if a.toNat < b.toNat then true
    else if b.toNat < a.toNat then false
    else listLeB as bs

/-- Python string ordering (`a <= b`). -/
def strLe (a b : String) : Prop :=
  listLeB a.data b.data = true

instance : DecidableRel strLe := fun a b => by
  unfold strLe; infer_instance

theorem listLeB_total (a b : List Char) : listLeB a b = true ∨ listLeB b a = true := by
  induction a generalizing b with
  | nil => left; rfl
  | cons x xs ih =>
    cases b with
    | nil => right; rfl
    | cons y ys =>
      by_cases h1 : x.toNat < y.toNat
      · left; simp [listLeB, h1]
      · by_cases h2 : y.toNat < x.toNat
        · right; simp [listLeB, h2, h1]
        · rcases ih ys with h | h
          · left; simp [listLeB, h1, h2, h]
          · right; simp [listLeB, h1, h2, h]

theorem listLeB_trans {a b c : List Char} (h1 : listLeB a b = true)
    (h2 : listLeB b c = true) : listLeB a c = true := by
  induction a generalizing b c with
  | nil => rfl
  | cons x xs ih =>
    cases b with
    | nil => simp [listLeB] at h1
    | cons y ys =>
      cases c with
      | nil => simp [listLeB] at h2
      | cons z zs =>
        simp only [listLeB] at h1 h2 ⊢
        by_cases hxy : x.toNat < y.toNat <;> by_cases hyz : y.toNat < z.toNat
        · simp [show x.toNat < z.toNat from lt_trans hxy hyz]
        · simp only [hyz, if_false] at h2
          by_cases hzy : z.toNat < y.toNat
          · simp [hzy] at h2
          · have hyz2 : y.toNat = z.toNat := le_antisymm (not_lt.mp hzy) (not_lt.mp hyz)
            simp [hyz2 ▸ hxy]
        · simp only [hxy, if_false] at h1
          by_cases hyx : y.toNat < x.toNat
          · simp [hyx] at h1
          · have hxy2 : x.toNat = y.toNat := le_antisymm (not_lt.mp hyx) (not_lt.mp hxy)
            simp [hxy2 ▸ hyz]
        · simp only [hxy, if_false] at h1
          simp only [hyz, if_false] at h2
          by_cases hyx : y.toNat < x.toNat
          · simp [hyx] at h1
          · by_cases hzy : z.toNat < y.toNat
            · simp [hzy] at h2
            · simp only [hyx, if_false] at h1
              simp only [hzy, if_false] at h2
              have hxz : ¬ x.toNat < z.toNat ∧ ¬ z.toNat < x.toNat := by
                constructor <;> omega
              simp [hxz.1, hxz.2, ih h1 h2]

theorem charToNat_inj {a b : Char} (h : a.toNat = b.toNat) : a = b :=
  Char.ext (UInt32.ext h)

theorem listLeB_antisymm {a b : List Char} (h1 : listLeB a b = true)
    (h2 : listLeB b a = true) : a = b := by
  induction a generalizing b with
  | nil =>
    cases b with
    | nil => rfl
    | cons y ys => simp [listLeB] at h2
  | cons x xs ih =>
    cases b with
    | nil => simp [listLeB] at h1
    | cons y ys =>
      simp only [listLeB] at h1 h2
      by_cases hxy : x.toNat < y.toNat
      · simp [show ¬ y.toNat < x.toNat by omega, hxy] at h2
      · by_cases hyx : y.toNat < x.toNat
        · simp [hxy, hyx] at h1
        · simp only [hxy, hyx, if_false] at h1 h2
          have hh : x = y := charToNat_inj (by omega)
          rw [hh, ih h1 h2]

instance : IsTotal String strLe :=
  ⟨fun a b => listLeB_total a.data b.data⟩

instance : IsTrans String strLe :=
  ⟨fun _ _ _ => listLeB_trans⟩

instance : IsAntisymm String strLe :=
  ⟨fun a b h1 h2 => by
    cases a; cases b; exact congrArg String.mk (listLeB_antisymm h1 h2)⟩

/-- Zero-padded two-digit rendering of a natural number, Python
`f"{n:02d}"` for `n ≥ 0`. -/
def nat02d (n : Nat) : String :=
  if n < 10 then "0" ++ toString n else "" ++ toString n

/-- Python `f"{i:02d}"` for an int (negative values keep their sign and
are only padded when shorter than the width). -/
def int02d (i : Int) : String :=
  if 0 ≤ i ∧ i < 10 then "0" ++ toString i else "" ++ toString i

/-- Python `f"{v:02d}"` on a dynamic value: ints (and bools, which are
ints in Python) format; anything else raises ValueError. -/
def format02d : Value → Except String String
  | .num n => .ok (int02d n)
  | .bool b => .ok (if b then "01" else "00")
  | _ => .error "ValueError: format d"

/-- Whether an `Except` computation succeeded. -/
def exceptOk {α : Type} : Except String α → Bool
  | .ok _ => true
  | .error _ => false

/-- The value of a successful renderer run (defaulting to `""` on the
error branch; used only to phrase concrete-instance theorems). -/
def fragOf (r : Except String String) : String :=
  match r with
  | .ok s => s
  | .error _ => ""

/-- Whether the list `p` occurs contiguously inside `s`. -/
def listIsInfix (p : List Char) : List Char → Bool
  | [] => p.isEmpty
  | c :: t => List.isPrefixOf p (c :: t) || listIsInfix p t

/-- Substring test: `p` occurs contiguously in `s`. -/
def strContains (s p : String) : Bool :=
  listIsInfix p.toList s.toList

/-! Literal chunks of the source string templates (`build-slides.py`).
Names are `<template>_<position>`; odd positions are the interpolation
holes filled in by the render functions below. -/

def hero_0 : String :=
  "
<div class=\"slide slide-hero\">
  <!-- Left color panel -->
  <div class=\"hero-panel-left\">
    "

def hero_2 : String :=
  "
    <h1 class=\"hero-title\">"

def hero_4 : String :=
  "</h1>
    <div class=\"hero-rule\"></div>
    <div class=\"hero-meta\">
      "

def hero_6 : String :=
  "
      "

def hero_8 : String :=
  "
    </div>
  </div>

  <!-- Right content panel -->
  <div class=\"hero-panel-right\">
    "

def hero_10 : String :=
  "
    <div class=\"hero-deco-num\">01</div>
  </div>

  <!-- Corner accent -->
  <div class=\"hero-corner-accent\"></div>
</div>

<style>
.slide-hero \x7b
  display: flex;
\x7d
.hero-panel-left \x7b
  width: 55%;
  height: 100%;
  background: var(--primary);
  display: flex;
  flex-direction: column;
  justify-content: center;
  padding: 96px;
  position: relative;
\x7d
.hero-tagline \x7b
  font-family: var(--font-body);
  font-size: 13px;
  font-weight: 600;
  letter-spacing: 0.2em;
  text-transform: uppercase;
  color: rgba(255,255,255,0.65);
  margin-bottom: 32px;
\x7d
.hero-title \x7b
  font-family: var(--font-display);
  font-size: 80px;
  font-weight: 800;
  line-height: 1.05;
  letter-spacing: -2px;
  color: #ffffff;
  margin-bottom: 48px;
\x7d
.hero-rule \x7b
  width: 64px;
  height: 3px;
  background: rgba(255,255,255,0.4);
  margin-bottom: 32px;
\x7d
.hero-meta \x7b
  display: flex;
  align-items: center;
  gap: 12px;
  font-size: 16px;
  color: rgba(255,255,255,0.75);
  font-weight: 400;
\x7d
.hero-sep \x7b opacity: 0.4; \x7d
.hero-panel-right \x7b
  flex: 1;
  background: var(--surface);
  display: flex;
  flex-direction: column;
  justify-content: center;
  padding: 96px 80px;
  position: relative;
\x7d
.hero-subtitle \x7b
  font-family: var(--font-display);
  font-size: 36px;
  font-weight: 300;
  line-height: 1.4;
  color: var(--text-primary);
  max-width: 520px;
\x7d
.hero-deco-num \x7b
  position: absolute;
  right: 64px;
  bottom: 64px;
  font-size: 160px;
  font-weight: 800;
  color: var(--primary);
  opacity: 0.06;
  line-height: 1;
  font-family: var(--font-display);
\x7d
.hero-corner-accent \x7b
  position: absolute;
  bottom: 0;
  left: 55%;
  transform: translateX(-50%);
  width: 2px;
  height: 80px;
  background: var(--primary);
  opacity: 0.3;
\x7d
</style>
"

def agendaItem_0 : String :=
  "
        <div class=\"agenda-item\">
          <span class=\"agenda-num\">"

def agendaItem_2 : String :=
  "</span>
          <span class=\"agenda-divider\"></span>
          <span class=\"agenda-text\">"

def agendaItem_4 : String :=
  "</span>
        </div>"

def agenda_0 : String :=
  "
<div class=\"slide slide-agenda\">
  <div class=\"accent-stripe\"></div>

  <div class=\"agenda-content\">
    <div class=\"section-label\">"

def agenda_2 : String :=
  "</div>
    <h2 class=\"agenda-heading\">"

def agenda_4 : String :=
  "</h2>
    <div class=\"agenda-items\">
      "

def agenda_6 : String :=
  "
    </div>
  </div>

  <div class=\"slide-num\">"

def agenda_8 : String :=
  "</div>
</div>

<style>
.slide-agenda \x7b
  display: flex;
  align-items: center;
  padding-left: 120px;
\x7d
.agenda-content \x7b
  width: 100%;
  max-width: 1400px;
\x7d
.agenda-heading \x7b
  font-family: var(--font-display);
  font-size: 56px;
  font-weight: 700;
  letter-spacing: -1.5px;
  color: var(--text-primary);
  margin-bottom: 64px;
  line-height: 1.1;
\x7d
.agenda-items \x7b
  display: flex;
  flex-direction: column;
  gap: 0;
\x7d
.agenda-item \x7b
  display: flex;
  align-items: center;
  gap: 32px;
  padding: 24px 0;
  border-bottom: 1px solid rgba(255,255,255,0.07);
\x7d
.agenda-item:first-child \x7b
  border-top: 1px solid rgba(255,255,255,0.07);
\x7d
.agenda-num \x7b
  font-family: var(--font-display);
  font-size: 20px;
  font-weight: 700;
  color: var(--primary);
  min-width: 36px;
  letter-spacing: 0.05em;
\x7d
.agenda-divider \x7b
  width: 1px;
  height: 24px;
  background: rgba(255,255,255,0.15);
\x7d
.agenda-text \x7b
  font-family: var(--font-display);
  font-size: 28px;
  font-weight: 500;
  color: var(--text-primary);
  letter-spacing: -0.3px;
\x7d
</style>
"

def contentImage_0 : String :=
  "
        <div class=\"content-image-placeholder\">
          <span class=\"content-image-hint\">"

def contentImage_2 : String :=
  "</span>
        </div>"

def content_0 : String :=
  "
<div class=\"slide slide-content\">
  <!-- Header bar -->
  <div class=\"content-header\">
    "

def content_2 : String :=
  "
    <h2 class=\"content-heading\">"

def content_4 : String :=
  "</h2>
  </div>

  <!-- Body area -->
  <div class=\"content-body "

def content_6 : String :=
  "\">
    <div class=\"content-text\">
      "

def content_8 : String :=
  "
      "

def content_10 : String :=
  "
    </div>
    "

def content_12 : String :=
  "
  </div>

  <div class=\"slide-num\">"

def content_14 : String :=
  "</div>
</div>

<style>
.slide-content \x7b
  display: flex;
  flex-direction: column;
\x7d
.content-header \x7b
  padding: 64px 96px 48px;
  border-bottom: 1px solid rgba(255,255,255,0.08);
  background: var(--surface);
\x7d
.content-heading \x7b
  font-family: var(--font-display);
  font-size: 52px;
  font-weight: 700;
  letter-spacing: -1.5px;
  line-height: 1.1;
  color: var(--text-primary);
\x7d
.content-body \x7b
  flex: 1;
  padding: 56px 96px;
  display: flex;
  gap: 80px;
\x7d
.content-layout-full .content-text \x7b max-width: 1100px; \x7d
.content-layout-split .content-text \x7b width: 55%; \x7d
.content-body-text \x7b
  font-size: 22px;
  line-height: 1.65;
  color: var(--text-secondary);
  margin-bottom: 36px;
  font-weight: 400;
\x7d
.content-bullets \x7b
  list-style: none;
  display: flex;
  flex-direction: column;
  gap: 20px;
\x7d
.content-bullet \x7b
  font-size: 24px;
  line-height: 1.5;
  color: var(--text-primary);
  font-weight: 400;
  padding-left: 28px;
  position: relative;
\x7d
.content-bullet::before \x7b
  content: \x27\x27;
  position: absolute;
  left: 0;
  top: 13px;
  width: 8px;
  height: 8px;
  border-radius: 50%;
  background: var(--primary);
\x7d
.content-image-placeholder \x7b
  flex: 1;
  background: var(--surface);
  border: 1px solid rgba(255,255,255,0.08);
  border-radius: 12px;
  display: flex;
  align-items: center;
  justify-content: center;
  min-height: 400px;
\x7d
.content-image-hint \x7b
  font-size: 14px;
  color: var(--text-secondary);
  text-align: center;
  max-width: 240px;
  opacity: 0.5;
\x7d
</style>
"

def twocolCard_0 : String :=
  "
        <div class=\"twocol-card\">
          <h3 class=\"col-heading\">"

def twocolCard_2 : String :=
  "</h3>
          "

def twocolCard_4 : String :=
  "
          "

def twocolCard_6 : String :=
  "
        </div>"

def twocol_0 : String :=
  "
<div class=\"slide slide-twocol\">
  <div class=\"content-header\">
    "

def twocol_2 : String :=
  "
    <h2 class=\"content-heading\">"

def twocol_4 : String :=
  "</h2>
  </div>

  <div class=\"twocol-body\">
    "

def twocol_6 : String :=
  "
    "

def twocol_8 : String :=
  "
  </div>

  <div class=\"slide-num\">"

def twocol_10 : String :=
  "</div>
</div>

<style>
.slide-twocol \x7b
  display: flex;
  flex-direction: column;
\x7d
.twocol-body \x7b
  flex: 1;
  display: flex;
  gap: 32px;
  padding: 48px 96px;
  align-items: stretch;
\x7d
.twocol-card \x7b
  flex: 1;
  background: var(--surface);
  border-radius: 12px;
  border: 1px solid rgba(255,255,255,0.07);
  border-left: 4px solid var(--primary);
  padding: 48px 52px;
  display: flex;
  flex-direction: column;
  gap: 24px;
\x7d
.col-heading \x7b
  font-family: var(--font-display);
  font-size: 32px;
  font-weight: 700;
  letter-spacing: -0.5px;
  color: var(--text-primary);
\x7d
.col-body \x7b
  font-size: 18px;
  line-height: 1.6;
  color: var(--text-secondary);
\x7d
.col-bullets \x7b
  list-style: none;
  display: flex;
  flex-direction: column;
  gap: 16px;
\x7d
.col-bullet \x7b
  font-size: 20px;
  color: var(--text-primary);
  padding-left: 24px;
  position: relative;
  line-height: 1.4;
\x7d
.col-bullet::before \x7b
  content: \x27\x27;
  position: absolute;
  left: 0;
  top: 10px;
  width: 6px;
  height: 6px;
  border-radius: 50%;
  background: var(--primary);
\x7d
</style>
"

def statsCard_0 : String :=
  "
        <div class=\"stat-card\">
          <div class=\"stat-number\">"

def statsCard_2 : String :=
  "</div>
          <div class=\"stat-label\">"

def statsCard_4 : String :=
  "</div>
          "

def statsCard_6 : String :=
  "
          "

def statsCard_8 : String :=
  "
        </div>"

def stats_0 : String :=
  "
<div class=\"slide slide-stats\">
  <div class=\"content-header\">
    "

def stats_2 : String :=
  "
    <h2 class=\"content-heading\">"

def stats_4 : String :=
  "</h2>
  </div>

  <div class=\"stats-body\">
    "

def stats_6 : String :=
  "
  </div>

  <div class=\"slide-num\">"

def stats_8 : String :=
  "</div>
</div>

<style>
.slide-stats \x7b
  display: flex;
  flex-direction: column;
\x7d
.stats-body \x7b
  flex: 1;
  display: flex;
  gap: 24px;
  padding: 48px 96px;
  align-items: stretch;
\x7d
.stat-card \x7b
  flex: 1;
  background: var(--surface);
  border-radius: 12px;
  border: 1px solid rgba(255,255,255,0.07);
  padding: 52px 48px;
  display: flex;
  flex-direction: column;
  justify-content: center;
  gap: 12px;
\x7d
.stat-number \x7b
  font-family: var(--font-display);
  font-size: 80px;
  font-weight: 800;
  letter-spacing: -3px;
  line-height: 1;
  color: var(--primary);
\x7d
.stat-label \x7b
  font-size: 16px;
  font-weight: 600;
  letter-spacing: 0.1em;
  text-transform: uppercase;
  color: var(--text-secondary);
\x7d
.stat-trend \x7b
  font-size: 18px;
  font-weight: 600;
  color: #4ade80;
\x7d
.stat-desc \x7b
  font-size: 15px;
  color: var(--text-secondary);
  line-height: 1.5;
  margin-top: 4px;
  opacity: 0.7;
\x7d
</style>
"

def quote_0 : String :=
  "
<div class=\"slide slide-quote\">
  <!-- Full-bleed primary background -->
  <div class=\"quote-bg\"></div>

  <!-- Giant decorative quote mark -->
  <div class=\"quote-deco\">\"</div>

  <div class=\"quote-content\">
    <blockquote class=\"quote-text\">"

def quote_2 : String :=
  "</blockquote>
    <div class=\"quote-rule\"></div>
    <div class=\"quote-attribution\">
      "

def quote_4 : String :=
  "
      "

def quote_6 : String :=
  "
    </div>
  </div>

  <div class=\"slide-num\" style=\"color: rgba(255,255,255,0.3);\">"

def quote_8 : String :=
  "</div>
</div>

<style>
.slide-quote \x7b
  display: flex;
  align-items: center;
  justify-content: center;
  background: var(--primary) !important;
\x7d
.quote-bg \x7b
  position: absolute;
  inset: 0;
  background: var(--primary);
\x7d
.quote-deco \x7b
  position: absolute;
  top: 60px;
  left: 80px;
  font-family: var(--font-display);
  font-size: 240px;
  font-weight: 800;
  color: rgba(255,255,255,0.08);
  line-height: 1;
  pointer-events: none;
\x7d
.quote-content \x7b
  position: relative;
  max-width: 1200px;
  text-align: center;
  padding: 0 96px;
\x7d
.quote-text \x7b
  font-family: var(--font-display);
  font-size: 48px;
  font-weight: 400;
  line-height: 1.4;
  color: #ffffff;
  letter-spacing: -0.5px;
  margin-bottom: 56px;
  font-style: italic;
\x7d
.quote-rule \x7b
  width: 64px;
  height: 2px;
  background: rgba(255,255,255,0.35);
  margin: 0 auto 32px;
\x7d
.quote-attribution \x7b
  display: flex;
  flex-direction: column;
  align-items: center;
  gap: 6px;
\x7d
.quote-name \x7b
  font-size: 20px;
  font-weight: 600;
  color: #ffffff;
  letter-spacing: 0.03em;
\x7d
.quote-role \x7b
  font-size: 15px;
  color: rgba(255,255,255,0.6);
  letter-spacing: 0.05em;
\x7d
</style>
"

def divider_0 : String :=
  "
<div class=\"slide slide-divider\">
  <!-- Left panel -->
  <div class=\"div-left\">
    <div class=\"div-big-num\">"

def divider_2 : String :=
  "</div>
  </div>

  <!-- Right panel -->
  <div class=\"div-right\">
    <div class=\"section-label\" style=\"color: var(--primary);\">SECTION "

def divider_4 : String :=
  "</div>
    <h2 class=\"div-title\">"

def divider_6 : String :=
  "</h2>
    "

def divider_8 : String :=
  "
  </div>
</div>

<style>
.slide-divider \x7b
  display: flex;
\x7d
.div-left \x7b
  width: 45%;
  height: 100%;
  background: var(--primary);
  display: flex;
  align-items: center;
  justify-content: center;
  position: relative;
\x7d
.div-big-num \x7b
  font-family: var(--font-display);
  font-size: 320px;
  font-weight: 900;
  color: rgba(0,0,0,0.15);
  line-height: 1;
  user-select: none;
\x7d
.div-right \x7b
  flex: 1;
  display: flex;
  flex-direction: column;
  justify-content: center;
  padding: 96px 96px 96px 80px;
\x7d
.div-title \x7b
  font-family: var(--font-display);
  font-size: 64px;
  font-weight: 700;
  letter-spacing: -2px;
  line-height: 1.05;
  color: var(--text-primary);
  margin: 20px 0 32px;
\x7d
.div-desc \x7b
  font-size: 22px;
  line-height: 1.6;
  color: var(--text-secondary);
  max-width: 560px;
\x7d
</style>
"

def closing_0 : String :=
  "
<div class=\"slide slide-closing\">
  <!-- Full-bleed background -->
  <!-- Decorative circles -->
  <div class=\"closing-circle c1\"></div>
  <div class=\"closing-circle c2\"></div>

  <div class=\"closing-left\">
    <div class=\"closing-tagline\">"

def closing_2 : String :=
  "</div>
    <h1 class=\"closing-heading\">"

def closing_4 : String :=
  "</h1>
    "

def closing_6 : String :=
  "
    "

def closing_8 : String :=
  "
  </div>

  "

def closing_10 : String :=
  "

  "

def closing_12 : String :=
  "
</div>

<style>
.slide-closing \x7b
  background: var(--primary) !important;
  display: flex;
  align-items: stretch;
  position: relative;
  overflow: hidden;
\x7d
.closing-circle \x7b
  position: absolute;
  border-radius: 50%;
  background: rgba(255,255,255,0.04);
  pointer-events: none;
\x7d
.c1 \x7b
  width: 800px; height: 800px;
  right: -200px; bottom: -200px;
\x7d
.c2 \x7b
  width: 500px; height: 500px;
  right: 200px; top: -150px;
\x7d
.closing-left \x7b
  flex: 1;
  display: flex;
  flex-direction: column;
  justify-content: center;
  padding: 96px;
\x7d
.closing-tagline \x7b
  font-size: 13px;
  font-weight: 700;
  letter-spacing: 0.25em;
  text-transform: uppercase;
  color: rgba(255,255,255,0.6);
  margin-bottom: 24px;
\x7d
.closing-heading \x7b
  font-family: var(--font-display);
  font-size: 80px;
  font-weight: 800;
  letter-spacing: -2.5px;
  line-height: 1.05;
  color: #ffffff;
  margin-bottom: 28px;
\x7d
.closing-subheading \x7b
  font-size: 24px;
  line-height: 1.5;
  color: rgba(255,255,255,0.75);
  margin-bottom: 48px;
  max-width: 560px;
\x7d
.closing-cta \x7b
  font-size: 20px;
  font-weight: 600;
  color: rgba(255,255,255,0.9);
  padding: 16px 0;
  border-top: 1px solid rgba(255,255,255,0.2);
  display: inline-block;
\x7d
.closing-right \x7b
  width: 560px;
  background: rgba(0,0,0,0.15);
  display: flex;
  flex-direction: column;
  justify-content: center;
  padding: 80px 64px;
  gap: 32px;
\x7d
.closing-takeaways-label \x7b
  font-size: 12px;
  font-weight: 700;
  letter-spacing: 0.15em;
  text-transform: uppercase;
  color: rgba(255,255,255,0.5);
\x7d
.closing-takeaways \x7b
  list-style: none;
  display: flex;
  flex-direction: column;
  gap: 20px;
\x7d
.closing-takeaway \x7b
  display: flex;
  align-items: flex-start;
  gap: 16px;
  font-size: 18px;
  line-height: 1.5;
  color: rgba(255,255,255,0.9);
\x7d
.takeaway-check \x7b
  color: rgba(255,255,255,0.5);
  flex-shrink: 0;
  font-size: 14px;
  margin-top: 3px;
\x7d
.closing-contact \x7b
  position: absolute;
  bottom: 48px;
  left: 96px;
  font-size: 15px;
  color: rgba(255,255,255,0.45);
  letter-spacing: 0.05em;
\x7d
</style>
"

def closingRight_0 : String :=
  "<div class=\"closing-right\">
    <div class=\"closing-takeaways-label\">Key Takeaways</div>
    <ul class=\"closing-takeaways\">"

def closingRight_2 : String :=
  "</ul>
  </div>"

def page_0 : String :=
  "<!DOCTYPE html>
<html lang=\"en\">
<head>
  <meta charset=\"UTF-8\">
  <meta name=\"viewport\" content=\"width=1920\">
  <title>Slide "

def page_2 : String :=
  " — "

def page_4 : String :=
  "</title>
  <link rel=\"preconnect\" href=\"https://fonts.googleapis.com\">
  <link rel=\"preconnect\" href=\"https://fonts.gstatic.com\" crossorigin>
  <link href=\""

def page_6 : String :=
  "\" rel=\"stylesheet\">
  <style>
"

def page_8 : String :=
  "
  </style>
</head>
<body>
"

def page_10 : String :=
  "
</body>
</html>"

def indexPage_0 : String :=
  "<!DOCTYPE html>
<html lang=\"en\">
<head>
  <meta charset=\"UTF-8\">
  <title>"

def indexPage_2 : String :=
  " — Slide Index</title>
  <style>
    body \x7b font-family: sans-serif; background: #0a0a0a; color: #fff; padding: 48px; \x7d
    h1 \x7b font-size: 32px; margin-bottom: 32px; \x7d
    ul \x7b list-style: none; display: flex; flex-direction: column; gap: 12px; \x7d
    a \x7b color: #6b7fff; font-size: 18px; text-decoration: none; \x7d
    a:hover \x7b text-decoration: underline; \x7d
  </style>
</head>
<body>
  <h1>"

def indexPage_4 : String :=
  "</h1>
  <ul>
"

def indexPage_6 : String :=
  "
  </ul>
</body>
</html>"

def css_0 : String :=
  "
@import url(\x27https://fonts.googleapis.com/css2?family=Inter:wght@300;400;500;600;700;800;900&family=Space+Grotesk:wght@300;400;500;600;700&family=DM+Sans:ital,wght@0,300;0,400;0,500;0,700;1,400&family=Playfair+Display:ital,wght@0,400;0,700;1,400&family=JetBrains+Mono:wght@400;500;700&family=Cormorant+Garamond:ital,wght@0,300;0,600;1,300&family=Plus+Jakarta+Sans:wght@400;500;600;700;800&display=swap\x27);

*, *::before, *::after \x7b
  box-sizing: border-box;
  margin: 0;
  padding: 0;
\x7d

:root \x7b
  --primary:       "

def css_2 : String :=
  ";
  --background:    "

def css_4 : String :=
  ";
  --surface:       "

def css_6 : String :=
  ";
  --accent:        "

def css_8 : String :=
  ";
  --text-primary:  "

def css_10 : String :=
  ";
  --text-secondary:"

def css_12 : String :=
  ";
  --font-display:  \x27"

def css_14 : String :=
  "\x27, Inter, sans-serif;
  --font-body:     \x27"

def css_16 : String :=
  "\x27, Inter, sans-serif;
\x7d

html, body \x7b
  width:  1920px;
  height: 1080px;
  overflow: hidden;
  background: var(--background);
  color: var(--text-primary);
  font-family: var(--font-body);
  -webkit-font-smoothing: antialiased;
  text-rendering: optimizeLegibility;
\x7d

/* ── Utility ── */
.slide \x7b
  width: 1920px;
  height: 1080px;
  position: relative;
  overflow: hidden;
  background: var(--background);
\x7d

/* accent stripe */
.accent-stripe \x7b
  position: absolute;
  left: 0; top: 0;
  width: 6px; height: 100%;
  background: var(--primary);
\x7d

/* section label */
.section-label \x7b
  font-family: var(--font-body);
  font-size: 13px;
  font-weight: 600;
  letter-spacing: 0.15em;
  text-transform: uppercase;
  color: var(--primary);
  margin-bottom: 16px;
\x7d

/* slide number watermark */
.slide-num \x7b
  position: absolute;
  right: 64px;
  bottom: 48px;
  font-size: 13px;
  font-weight: 500;
  color: var(--text-secondary);
  letter-spacing: 0.08em;
  opacity: 0.5;
\x7d
"


/-! The eight slide render functions. Each mirrors the corresponding
Python builder `slide_*(c, idx, palette, fonts)`: content fields are
read with `.get` (AttributeError on non-dict content), interpolated with
Python `str()` semantics, and guarded by Python truthiness where the
source guards them. -/

def slide_hero (c : Value) (idx : Int) (palette fonts : Value) :
    Except String String := do
  let title ← pyGetD c "title" (.str "")
  let subtitle ← pyGetD c "subtitle" (.str "")
  let tagline ← pyGetD c "tagline" (.str "")
  let author ← pyGetD c "author" (.str "")
  let date ← pyGetD c "date" (.str "")
  return hero_0
    ++ (if tagline.truthy then
          "<div class=\"hero-tagline\">" ++ tagline.pyStr ++ "</div>"
        else "")
    ++ hero_2 ++ title.pyStr ++ hero_4
    ++ (if author.truthy then
          "<span class=\"hero-author\">" ++ author.pyStr ++ "</span>"
        else "")
    ++ hero_6
    ++ (if date.truthy && author.truthy then
          "<span class=\"hero-sep\">·</span><span class=\"hero-date\">"
            ++ date.pyStr ++ "</span>"
        else if date.truthy then
          "<span class=\"hero-date\">" ++ date.pyStr ++ "</span>"
        else "")
    ++ hero_8
    ++ (if subtitle.truthy then
          "<p class=\"hero-subtitle\">" ++ subtitle.pyStr ++ "</p>"
        else "")
    ++ hero_10

/-- The `items_html` accumulation loop of `slide_agenda`: one block per
item, numbered `01`, `02`, … from the item position. -/
def agendaItemsHtml (items : List Value) : String :=
  String.join ((items.enum).map fun p =>
    agendaItem_0 ++ nat02d (p.1 + 1) ++ agendaItem_2 ++ p.2.pyStr ++ agendaItem_4)

def slide_agenda (c : Value) (idx : Int) (palette fonts : Value) :
    Except String String := do
  let heading ← pyGetD c "heading" (.str "Agenda")
  let section_label ← pyGetD c "sectionLabel" (.str "OVERVIEW")
  let items ← pyGetD c "items" (.list [])
  let itemsL ← items.pyIter
  return agenda_0 ++ section_label.pyStr ++ agenda_2 ++ heading.pyStr
    ++ agenda_4 ++ agendaItemsHtml itemsL ++ agenda_6 ++ int02d idx ++ agenda_8

/-- The `bullets_html` accumulation loop of `slide_content`. -/
def contentBulletsHtml (bullets : List Value) : String :=
  String.join (bullets.map fun b =>
    "<li class=\"content-bullet\">" ++ b.pyStr ++ "</li>")

def slide_content (c : Value) (idx : Int) (palette fonts : Value) :
    Except String String := do
  let heading ← pyGetD c "heading" (.str "")
  let section_label ← pyGetD c "sectionLabel" (.str "")
  let body ← pyGetD c "body" (.str "")
  let bullets ← pyGetD c "bullets" (.list [])
  let imageHintV ← pyGetD c "imageHint" .null
  let has_image := imageHintV.truthy
  let bulletsL ← bullets.pyIter
  let bullets_html := contentBulletsHtml bulletsL
  let imageHint2 ← pyGetD c "imageHint" (.str "")
  let image_html :=
    if has_image then
      contentImage_0 ++ imageHint2.pyStr ++ contentImage_2
    else ""
  let layout_class :=
    if has_image then "content-layout-split" else "content-layout-full"
  return content_0
    ++ (if section_label.truthy then
          "<div class=\"section-label\">" ++ section_label.pyStr ++ "</div>"
        else "")
    ++ content_2 ++ heading.pyStr ++ content_4 ++ layout_class ++ content_6
    ++ (if body.truthy then
          "<p class=\"content-body-text\">" ++ body.pyStr ++ "</p>"
        else "")
    ++ content_8
    ++ (if bullets.truthy then
          "<ul class=\"content-bullets\">" ++ bullets_html ++ "</ul>"
        else "")
    ++ content_10 ++ image_html ++ content_12 ++ int02d idx ++ content_14

/-- The nested `col_html(col)` helper of `slide_two_col`. -/
def col_html (col : Value) : Except String String := do
  let h ← pyGetD col "heading" (.str "")
  let body ← pyGetD col "body" (.str "")
  let items ← pyGetD col "bullets" (.list [])
  let itemsL ← items.pyIter
  let bullets := String.join (itemsL.map fun b =>
    "<li class=\"col-bullet\">" ++ b.pyStr ++ "</li>")
  return twocolCard_0 ++ h.pyStr ++ twocolCard_2
    ++ (if body.truthy then
          "<p class=\"col-body\">" ++ body.pyStr ++ "</p>"
        else "")
    ++ twocolCard_4
    ++ (if items.truthy then
          "<ul class=\"col-bullets\">" ++ bullets ++ "</ul>"
        else "")
    ++ twocolCard_6

def slide_two_col (c : Value) (idx : Int) (palette fonts : Value) :
    Except String String := do
  let heading ← pyGetD c "heading" (.str "")
  let section_label ← pyGetD c "sectionLabel" (.str "")
  let left ← pyGetD c "leftCol" (.obj [])
  let right ← pyGetD c "rightCol" (.obj [])
  let leftHtml ← col_html left
  let rightHtml ← col_html right
  return twocol_0
    ++ (if section_label.truthy then
          "<div class=\"section-label\">" ++ section_label.pyStr ++ "</div>"
        else "")
    ++ twocol_2 ++ heading.pyStr ++ twocol_4 ++ leftHtml ++ twocol_6
    ++ rightHtml ++ twocol_8 ++ int02d idx ++ twocol_10

/-- The `cards_html` accumulation loop of `slide_stats`: each stat
element is accessed with `.get`, so a non-dict element raises. -/
def statsCardsHtml : List Value → Except String String
  | [] => .ok ""
  | s :: rest => do
    let trendV ← pyGetD s "trend" .null
    let trend_html :=
      if trendV.truthy then
        "<div class=\"stat-trend\">" ++ trendV.pyStr ++ "</div>"
      else ""
    let descV ← pyGetD s "description" .null
    let desc_html :=
      if descV.truthy then
        "<div class=\"stat-desc\">" ++ descV.pyStr ++ "</div>"
      else ""
    let numberV ← pyGetD s "number" (.str "")
    let labelV ← pyGetD s "label" (.str "")
    let card := statsCard_0 ++ numberV.pyStr ++ statsCard_2 ++ labelV.pyStr
      ++ statsCard_4 ++ trend_html ++ statsCard_6 ++ desc_html ++ statsCard_8
    let restHtml ← statsCardsHtml rest
    return card ++ restHtml

def slide_stats (c : Value) (idx : Int) (palette fonts : Value) :
    Except String String := do
  let heading ← pyGetD c "heading" (.str "")
  let section_label ← pyGetD c "sectionLabel" (.str "")
  let stats ← pyGetD c "stats" (.list [])
  let statsL ← stats.pyIter
  let cards_html ← statsCardsHtml statsL
  return stats_0
    ++ (if section_label.truthy then
          "<div class=\"section-label\">" ++ section_label.pyStr ++ "</div>"
        else "")
    ++ stats_2 ++ heading.pyStr ++ stats_4 ++ cards_html ++ stats_6
    ++ int02d idx ++ stats_8

def slide_quote (c : Value) (idx : Int) (palette fonts : Value) :
    Except String String := do
  let quote ← pyGetD c "quote" (.str "")
  let attribution ← pyGetD c "attribution" (.str "")
  let role ← pyGetD c "role" (.str "")
  return quote_0 ++ quote.pyStr ++ quote_2
    ++ (if attribution.truthy then
          "<span class=\"quote-name\">" ++ attribution.pyStr ++ "</span>"
        else "")
    ++ quote_4
    ++ (if role.truthy then
          "<span class=\"quote-role\">" ++ role.pyStr ++ "</span>"
        else "")
    ++ quote_6 ++ int02d idx ++ quote_8

def slide_divider (c : Value) (idx : Int) (palette fonts : Value) :
    Except String String := do
  let num ← pyGetD c "sectionNumber" (.num idx)
  let title ← pyGetD c "sectionTitle" (.str "")
  let desc ← pyGetD c "description" (.str "")
  let numS ← format02d num
  let numS2 ← format02d num
  return divider_0 ++ numS ++ divider_2 ++ numS2 ++ divider_4
    ++ title.pyStr ++ divider_6
    ++ (if desc.truthy then
          "<p class=\"div-desc\">" ++ desc.pyStr ++ "</p>"
        else "")
    ++ divider_8

/-- The `takeaway_html` accumulation loop of `slide_closing`. -/
def takeawayHtml (takeaways : List Value) : String :=
  String.join (takeaways.map fun t =>
    "<li class=\"closing-takeaway\"><span class=\"takeaway-check\">✓</span>"
      ++ t.pyStr ++ "</li>")

def slide_closing (c : Value) (idx : Int) (palette fonts : Value) :
    Except String String := do
  let tagline ← pyGetD c "tagline" (.str "THANK YOU")
  let heading ← pyGetD c "heading" (.str "Let\x27s Build Together")
  let subheading ← pyGetD c "subheading" (.str "")
  let takeaways ← pyGetD c "keyTakeaways" (.list [])
  let cta ← pyGetD c "cta" (.str "")
  let contact ← pyGetD c "contactInfo" (.str "")
  let takeawaysL ← takeaways.pyIter
  let takeaway_html := takeawayHtml takeawaysL
  return closing_0 ++ tagline.pyStr ++ closing_2 ++ heading.pyStr ++ closing_4
    ++ (if subheading.truthy then
          "<p class=\"closing-subheading\">" ++ subheading.pyStr ++ "</p>"
        else "")
    ++ closing_6
    ++ (if cta.truthy then
          "<div class=\"closing-cta\">" ++ cta.pyStr ++ "</div>"
        else "")
    ++ closing_8
    ++ (if takeaways.truthy then
          closingRight_0 ++ takeaway_html ++ closingRight_2
        else "")
    ++ closing_10
    ++ (if contact.truthy then
          "<div class=\"closing-contact\">" ++ contact.pyStr ++ "</div>"
        else "")
    ++ closing_12

/-- The slide type dispatch table `BUILDERS`. -/
def BUILDERS : List (String × (Value → Int → Value → Value → Except String String)) :=
  [("HERO",    slide_hero),
   ("AGENDA",  slide_agenda),
   ("CONTENT", slide_content),
   ("TWO_COL", slide_two_col),
   ("STATS",   slide_stats),
   ("QUOTE",   slide_quote),
   ("DIVIDER", slide_divider),
   ("CLOSING", slide_closing)]

/-- Page template `make_page`: wraps a slide fragment in a standalone
page (`title` is interpolated with `str()`, `total` is accepted but
unused, exactly as in the source). -/
def make_page (slide_html css_vars google_fonts_url : String) (title : Value)
    (slide_num : Int) (total : Nat) : String :=
  page_0 ++ toString slide_num ++ page_2 ++ title.pyStr ++ page_4
    ++ google_fonts_url ++ page_6 ++ css_vars ++ page_8 ++ slide_html ++ page_10

/-- Theme stylesheet `build_css_vars`: `SHARED_CSS` with the palette and
font fields substituted (each falling back to its fixed default). -/
def build_css_vars (palette fonts : Value) : Except String String := do
  let primary ← pyGetD palette "primary" (.str "#2D3FE0")
  let background ← pyGetD palette "background" (.str "#0A0A0A")
  let surface ← pyGetD palette "surface" (.str "#111111")
  let accent ← pyGetD palette "accent" (.str "#FF3B00")
  let textPrimary ← pyGetD palette "textPrimary" (.str "#FFFFFF")
  let textSecondary ← pyGetD palette "textSecondary" (.str "#888888")
  let fontDisplay ← pyGetD fonts "display" (.str "Inter")
  let fontBody ← pyGetD fonts "body" (.str "Inter")
  return css_0 ++ primary.pyStr ++ css_2 ++ background.pyStr ++ css_4
    ++ surface.pyStr ++ css_6 ++ accent.pyStr ++ css_8 ++ textPrimary.pyStr
    ++ css_10 ++ textSecondary.pyStr ++ css_12 ++ fontDisplay.pyStr
    ++ css_14 ++ fontBody.pyStr ++ css_16

/-- One `family=...` query term of the Google Fonts URL. -/
def termOfFamily (name : String) : String :=
  "family=" ++ pyReplace name " " "+" ++ ":wght@300;400;500;600;700;800;900"

/-- The fallback family term, always added once. -/
def interTerm : String :=
  "family=Inter:wght@300;400;500;600;700;800"

/-- The distinct family terms (Python `set`), sorted as `sorted()` does. -/
def gfontsTerms (names : List String) : List String :=
  List.insertionSort strLe ((names.map termOfFamily ++ [interTerm]).dedup)

def gfontsQuery (names : List String) : String :=
  String.intercalate "&" (gfontsTerms names)

def gfontsUrl (names : List String) : String :=
  "https://fonts.googleapis.com/css2?" ++ gfontsQuery names ++ "&display=swap"

/-- The string values of a dict, in insertion order; a non-string value
raises at its `.replace` call. -/
def pyValuesStrings : List (String × Value) → Except String (List String)
  | [] => .ok []
  | (_, .str s) :: rest => do
    let tail ← pyValuesStrings rest
    return s :: tail
  | _ => .error "AttributeError: replace"

/-- `build_google_fonts_url(fonts)`: iterates `fonts.values()`. -/
def build_google_fonts_url (fonts : Value) : Except String String :=
  match fonts with
  | .obj fs => do
    let names ← pyValuesStrings fs
    return gfontsUrl names
  | _ => .error "AttributeError: values"

/-- Index page `make_index`. -/
def make_index (title : Value) (slide_files : List String) : String :=
  let links := String.intercalate "\n" (slide_files.map fun f =>
    "    <li><a href=\"slides/" ++ f ++ "\">" ++ f ++ "</a></li>")
  indexPage_0 ++ title.pyStr ++ indexPage_2 ++ title.pyStr ++ indexPage_4
    ++ links ++ indexPage_6


/-! The build orchestration of `main()` in `build-slides.py`.  File
writes are modelled as a trace of `Write` events in program order;
uncaught Python exceptions become `Except.error`.  The final
`slide_files[0]` access of the success report raises IndexError when no
slide rendered, which is the only way a non-empty plan ends without a
successful outcome after the loop. -/

/-- One manifest record: `{"index": i, "type": stype, "file": fname,
"url": f"http://localhost:7890/slides/{fname}"}`. -/
structure ManifestEntry where
  index : Int
  type : String
  file : String
  url : String
deriving DecidableEq, Repr

/-- A file write performed by the build, in program order. -/
inductive Write where
  | page : String → String → Write
  | indexPage : String → String → Write
  | manifestFile : String → Value → List ManifestEntry → Write

/-- The path of a write. -/
def Write.path : Write → String
  | .page p _ => p
  | .indexPage p _ => p
  | .manifestFile p _ _ => p

/-- The warning printed for an unrecognized slide type. -/
def warnMsg (stype : String) (i : Int) : String :=
  "WARNING: Unknown slide type \x27" ++ stype ++ "\x27 at index "
    ++ toString i ++ ". Skipping."

/-- Result of processing one slide of the loop body. -/
inductive StepRes where
  | skipped : String → StepRes
  | rendered : String → String → ManifestEntry → StepRes

/-- One iteration of the build loop at 1-based position `i`: type
normalization, registry lookup, render, page assembly, filename
derivation and manifest entry. -/
def stepSlide (css gurl : String) (title palette fonts : Value)
    (total : Nat) (slide : Value) (i : Int) : Except String StepRes := do
  let stypeV ← pyGetD slide "type" (.str "CONTENT")
  let stype ← pyUpper stypeV
  let content ← pyGetD slide "content" (.obj [])
  match List.lookup stype BUILDERS with
  | none => return .skipped (warnMsg stype i)
  | some builder => do
    let slide_html ← builder content i palette fonts
    let page_html := make_page slide_html css gurl title i total
    let slug := pyReplace (strLower stype) "_" "-"
    let fname := int02d i ++ "-" ++ slug ++ ".html"
    return .rendered fname page_html
      ⟨i, stype, fname, "http://localhost:7890/slides/" ++ fname⟩

/-- Accumulated outputs of the build loop; `err` is the uncaught
exception that aborted it, if any (outputs before the abort are kept,
as the corresponding Python writes have already happened). -/
structure LoopOut where
  writes : List Write
  warnings : List String
  files : List String
  manifest : List ManifestEntry
  err : Option String

/-- The `for i, slide in enumerate(slides, start=1)` loop. -/
def buildLoop (css gurl : String) (title palette fonts : Value)
    (total : Nat) : List Value → Int → LoopOut
  | [], _ => ⟨[], [], [], [], none⟩
  | slide :: rest, i =>
    match stepSlide css gurl title palette fonts total slide i with
    | .error e => ⟨[], [], [], [], some e⟩
    | .ok (.skipped w) =>
      let out := buildLoop css gurl title palette fonts total rest (i + 1)
      ⟨out.writes, w :: out.warnings, out.files, out.manifest, out.err⟩
    | .ok (.rendered fname page entry) =>
      let out := buildLoop css gurl title palette fonts total rest (i + 1)
      ⟨.page ("slides/" ++ fname) page :: out.writes, out.warnings,
        fname :: out.files, entry :: out.manifest, out.err⟩

/-- How a build run ends fatally. -/
inductive BuildError where
  | noSlides
  | indexError
  | exn : String → BuildError
deriving DecidableEq, Repr

/-- The data of a successful build run. -/
structure BuildResult where
  manifest : List ManifestEntry
  files : List String
  firstSlideUrl : String
deriving DecidableEq, Repr

/-- A full build run: its writes, its warnings, and its outcome. -/
structure BuildTrace where
  writes : List Write
  warnings : List String
  outcome : Except BuildError BuildResult

/-- The plan-field extraction at the top of `main()`:
`title`, `palette`, `fonts`, `slides`, each with its default. -/
def planHeader (plan : Value) : Except String (Value × Value × Value × Value) := do
  let titleV ← pyGetD plan "title" (.str "Presentation")
  let palette ← pyGetD plan "palette" (.obj [])
  let fonts ← pyGetD plan "fonts"
    (.obj [("display", Value.str "Inter"), ("body", Value.str "Inter")])
  let slidesV ← pyGetD plan "slides" (.list [])
  return (titleV, palette, fonts, slidesV)

/-- The pre-loop computations of `main()`: shared CSS, the font URL,
and the iteration of the slide list. -/
def buildPrep (palette fonts slidesV : Value) :
    Except String (String × String × List Value) := do
  let css ← build_css_vars palette fonts
  let gurl ← build_google_fonts_url fonts
  let slides ← slidesV.pyIter
  return (css, gurl, slides)

/-- The slide list of a plan, as `main()` extracts and iterates it. -/
def planSlidesOf (plan : Value) : Except String (List Value) := do
  let slidesV ← pyGetD plan "slides" (.list [])
  slidesV.pyIter

/-- `main()` of `build-slides.py`, from the parsed plan object on:
field extraction with defaults, the empty-slides fatal check (before any
file is written), shared CSS and font URL computation, the slide loop,
then the index page, the manifest file `slide-urls.json`, and the final
report whose `slide_files[0]` raises IndexError when nothing rendered. -/
def mainModel (plan : Value) : BuildTrace :=
  match planHeader plan with
  | .error e => ⟨[], [], .error (.exn e)⟩
  | .ok (titleV, palette, fonts, slidesV) =>
    if !slidesV.truthy then ⟨[], [], .error .noSlides⟩
    else
      match buildPrep palette fonts slidesV with
      | .error e => ⟨[], [], .error (.exn e)⟩
      | .ok (css, gurl, slides) =>
        let out := buildLoop css gurl titleV palette fonts slides.length slides 1
        match out.err with
        | some e => ⟨out.writes, out.warnings, .error (.exn e)⟩
        | none =>
          let writes := out.writes
            ++ [Write.indexPage "index.html" (make_index titleV out.files),
                Write.manifestFile "slide-urls.json" titleV out.manifest]
          match out.files with
          | [] => ⟨writes, out.warnings, .error .indexError⟩
          | f :: _ =>
            ⟨writes, out.warnings,
              .ok ⟨out.manifest, out.files,
                "http://localhost:7890/slides/" ++ f⟩⟩

/-! The serve-time manifest rewrite of `serve-and-capture.py` (the Ready
state): every entry of `url_data["slides"]` gets its `url` field
reassigned from the live port and its `file` field; nothing else of the
loaded manifest is touched. -/

/-- Python dict item assignment `d[k] = x`: replaces the value of an
existing key in place, appends a new key at the end. -/
def setKey : List (String × Value) → String → Value → List (String × Value)
  | [], k, x => [(k, x)]
  | (k0, v0) :: rest, k, x =>
    if k0 == k then (k0, x) :: rest else (k0, v0) :: setKey rest k x

/-- `d[k] = x` on a value: TypeError on a non-dict receiver. -/
def objSet (v : Value) (k : String) (x : Value) : Except String Value :=
  match v with
  | .obj fs => .ok (.obj (setKey fs k x))
  | _ => .error "TypeError: item assignment"

/-- The rewritten live URL of one slide entry. -/
def liveUrl (port : Int) (fname : String) : String :=
  "http://localhost:" ++ toString port ++ "/slides/" ++ fname

/-- The body of the rewrite loop: `fname = slide["file"];
slide["url"] = f"http://localhost:{port}/slides/{fname}"`. -/
def rewriteSlideUrl (port : Int) (slide : Value) : Except String Value := do
  let fname ← pyIndex slide "file"
  objSet slide "url" (.str (liveUrl port fname.pyStr))

/-- The whole rewrite of the loaded `slide-urls.json` data. -/
def rewriteUrls (port : Int) (url_data : Value) : Except String Value := do
  let slidesV ← pyIndex url_data "slides"
  let slides ← slidesV.pyIter
  let newSlides ← slides.mapM (rewriteSlideUrl port)
  objSet url_data "slides" (.list newSlides)

/-- Field lookup on an object value (`none` elsewhere); used to state
which fields the serve-time rewrite preserves. -/
def Value.field (v : Value) (k : String) : Option Value :=
  match v with
  | .obj fs => List.lookup k fs
  | _ => none

/-! Well-formedness of slide content: the fields each template reads,
when present, have shapes the template can consume (list-valued fields
iterable, stat elements dicts, columns dicts, `sectionNumber` an int).
Under this predicate every render function is total; outside it some
raise (see the C3 analysis). -/

/-- The value can be iterated by a Python `for`. -/
def wfIterB (v : Value) : Bool :=
  exceptOk v.pyIter

/-- The value is a dict. -/
def isObjB : Value → Bool
  | .obj _ => true
  | _ => false

/-- A `leftCol`/`rightCol` value `col_html` can consume: a dict whose
`bullets`, when present, is iterable. -/
def wfColB : Value → Bool
  | .obj gs =>
    (match List.lookup "bullets" gs with
     | some b => wfIterB b
     | none => true)
  | _ => false

/-- A `stats` value `slide_stats` can consume: iterable with every
element a dict. -/
def wfStatsB (v : Value) : Bool :=
  match v.pyIter with
  | .ok xs => xs.all isObjB
  | .error _ => false

/-- Shape constraint a content field must satisfy, by field name. -/
def wfFieldB (k : String) (v : Value) : Bool :=
  if k == "items" || k == "bullets" || k == "keyTakeaways" then wfIterB v
  else if k == "stats" then wfStatsB v
  else if k == "leftCol" || k == "rightCol" then wfColB v
  else if k == "sectionNumber" then exceptOk (format02d v)
  else true

/-- Well-formed content: a dict all of whose fields satisfy their shape
constraint (fields may be freely absent). -/
def WFContentB : Value → Bool
  | .obj fs => fs.all fun kv => wfFieldB kv.1 kv.2
  | _ => false


/-! Helper lemmas: association-list lookups and totality of the render
functions on well-formed content. -/

theorem lookup_mem {fs : List (String × Value)} {k : String} {v : Value}
    (h : List.lookup k fs = some v) : (k, v) ∈ fs := by
  induction fs with
  | nil => simp [List.lookup] at h
  | cons kv rest ih =>
    rcases kv with ⟨k0, v0⟩
    by_cases hk : k == k0
    · simp only [List.lookup, hk, if_pos] at h
      obtain rfl : v0 = v := by simpa using h
      obtain rfl : k = k0 := by simpa using hk
      exact List.mem_cons_self _ _
    · simp only [List.lookup, hk] at h
      exact List.mem_cons_of_mem _ (ih h)

theorem wf_field_of_lookup {fs : List (String × Value)} {k : String} {v : Value}
    (hwf : WFContentB (.obj fs) = true) (h : List.lookup k fs = some v) :
    wfFieldB k v = true := by
  have hall : ∀ kv ∈ fs, wfFieldB kv.1 kv.2 = true := by
    simpa [WFContentB, List.all_eq_true] using hwf
  exact hall (k, v) (lookup_mem h)

/-- The value a render function reads for field `k` from well-formed
content satisfies that field's shape constraint (the default `d` must
satisfy it too). -/
theorem wf_getD (k : String) (d : Value) {fs : List (String × Value)}
    (hwf : WFContentB (.obj fs) = true) (hd : wfFieldB k d = true) :
    wfFieldB k ((List.lookup k fs).getD d) = true := by
  rcases h : List.lookup k fs with _ | v
  · simpa using hd
  · simpa using wf_field_of_lookup hwf h

theorem statsCardsHtml_total {xs : List Value} (h : xs.all isObjB = true) :
    exceptOk (statsCardsHtml xs) = true := by
  induction xs with
  | nil => rfl
  | cons s rest ih =>
    rw [List.all_cons, Bool.and_eq_true] at h
    obtain ⟨hs, hrest⟩ := h
    have hrec := ih hrest
    rcases s with s | n | b | _ | l | gs
    · simp [isObjB] at hs
    · simp [isObjB] at hs
    · simp [isObjB] at hs
    · simp [isObjB] at hs
    · simp [isObjB] at hs
    · rcases hr : statsCardsHtml rest with e | v
      · rw [hr] at hrec; simp [exceptOk] at hrec
      · simp [statsCardsHtml, pyGetD, Except.bind, Except.map, bind, Functor.map,
          pure, Except.pure, hr, exceptOk]

theorem col_html_total {col : Value} (h : wfColB col = true) :
    exceptOk (col_html col) = true := by
  rcases col with s | n | b | _ | l | gs <;> simp [wfColB] at h
  have hbw : wfIterB ((List.lookup "bullets" gs).getD (.list [])) = true := by
    rcases hb : List.lookup "bullets" gs with _ | bv
    · rfl
    · rw [hb] at h; simpa using h
  unfold wfIterB at hbw
  rcases hit : ((List.lookup "bullets" gs).getD (.list [])).pyIter with e | xs
  · rw [hit] at hbw; simp [exceptOk] at hbw
  · simp [col_html, pyGetD, Except.bind, Except.map, bind, Functor.map,
      pure, Except.pure, hit, exceptOk]

theorem slide_hero_total (fs : List (String × Value)) (i : Int) (p f : Value) :
    exceptOk (slide_hero (.obj fs) i p f) = true := by
  simp [slide_hero, pyGetD, Except.bind, Except.map, bind, Functor.map,
    pure, Except.pure, exceptOk]

theorem slide_agenda_total (fs : List (String × Value)) (i : Int) (p f : Value)
    (hwf : WFContentB (.obj fs) = true) :
    exceptOk (slide_agenda (.obj fs) i p f) = true := by
  have hit : wfIterB ((List.lookup "items" fs).getD (.list [])) = true :=
    wf_getD "items" (.list []) hwf (by rfl)
  unfold wfIterB at hit
  rcases h : ((List.lookup "items" fs).getD (.list [])).pyIter with e | xs
  · rw [h] at hit; simp [exceptOk] at hit
  · simp [slide_agenda, pyGetD, Except.bind, Except.map, bind, Functor.map,
      pure, Except.pure, h, exceptOk]

theorem slide_content_total (fs : List (String × Value)) (i : Int) (p f : Value)
    (hwf : WFContentB (.obj fs) = true) :
    exceptOk (slide_content (.obj fs) i p f) = true := by
  have hit : wfIterB ((List.lookup "bullets" fs).getD (.list [])) = true :=
    wf_getD "bullets" (.list []) hwf (by rfl)
  unfold wfIterB at hit
  rcases h : ((List.lookup "bullets" fs).getD (.list [])).pyIter with e | xs
  · rw [h] at hit; simp [exceptOk] at hit
  · simp [slide_content, pyGetD, Except.bind, Except.map, bind, Functor.map,
      pure, Except.pure, h, exceptOk]

theorem slide_two_col_total (fs : List (String × Value)) (i : Int) (p f : Value)
    (hwf : WFContentB (.obj fs) = true) :
    exceptOk (slide_two_col (.obj fs) i p f) = true := by
  have hl : wfColB ((List.lookup "leftCol" fs).getD (.obj [])) = true :=
    wf_getD "leftCol" (.obj []) hwf (by rfl)
  have hr : wfColB ((List.lookup "rightCol" fs).getD (.obj [])) = true :=
    wf_getD "rightCol" (.obj []) hwf (by rfl)
  have hlt := col_html_total hl
  have hrt := col_html_total hr
  rcases h1 : col_html ((List.lookup "leftCol" fs).getD (.obj [])) with e | s1
  · rw [h1] at hlt; simp [exceptOk] at hlt
  · rcases h2 : col_html ((List.lookup "rightCol" fs).getD (.obj [])) with e | s2
    · rw [h2] at hrt; simp [exceptOk] at hrt
    · simp [slide_two_col, pyGetD, Except.bind, Except.map, bind, Functor.map,
        pure, Except.pure, h1, h2, exceptOk]

theorem slide_stats_total (fs : List (String × Value)) (i : Int) (p f : Value)
    (hwf : WFContentB (.obj fs) = true) :
    exceptOk (slide_stats (.obj fs) i p f) = true := by
  have hst : wfStatsB ((List.lookup "stats" fs).getD (.list [])) = true :=
    wf_getD "stats" (.list []) hwf (by rfl)
  unfold wfStatsB at hst
  rcases h : ((List.lookup "stats" fs).getD (.list [])).pyIter with e | xs
  · rw [h] at hst; simp at hst
  · rw [h] at hst
    have hc := statsCardsHtml_total hst
    rcases hcards : statsCardsHtml xs with e | cards
    · rw [hcards] at hc; simp [exceptOk] at hc
    · simp [slide_stats, pyGetD, Except.bind, Except.map, bind, Functor.map,
        pure, Except.pure, h, hcards, exceptOk]

theorem slide_quote_total (fs : List (String × Value)) (i : Int) (p f : Value) :
    exceptOk (slide_quote (.obj fs) i p f) = true := by
  simp [slide_quote, pyGetD, Except.bind, Except.map, bind, Functor.map,
    pure, Except.pure, exceptOk]

theorem slide_divider_total (fs : List (String × Value)) (i : Int) (p f : Value)
    (hwf : WFContentB (.obj fs) = true) :
    exceptOk (slide_divider (.obj fs) i p f) = true := by
  have hn : exceptOk (format02d ((List.lookup "sectionNumber" fs).getD (.num i))) = true :=
    wf_getD "sectionNumber" (.num i) hwf (by simp [wfFieldB, format02d, exceptOk])
  rcases h : format02d ((List.lookup "sectionNumber" fs).getD (.num i)) with e | s
  · rw [h] at hn; simp [exceptOk] at hn
  · simp [slide_divider, pyGetD, Except.bind, Except.map, bind, Functor.map,
      pure, Except.pure, h, exceptOk]

theorem slide_closing_total (fs : List (String × Value)) (i : Int) (p f : Value)
    (hwf : WFContentB (.obj fs) = true) :
    exceptOk (slide_closing (.obj fs) i p f) = true := by
  have hit : wfIterB ((List.lookup "keyTakeaways" fs).getD (.list [])) = true :=
    wf_getD "keyTakeaways" (.list []) hwf (by rfl)
  unfold wfIterB at hit
  rcases h : ((List.lookup "keyTakeaways" fs).getD (.list [])).pyIter with e | xs
  · rw [h] at hit; simp [exceptOk] at hit
  · simp [slide_closing, pyGetD, Except.bind, Except.map, bind, Functor.map,
      pure, Except.pure, h, exceptOk]


/-! Structural lemmas about the build loop: what one skipped slide
contributes, and how manifest entries relate to plan positions. -/

/-- What a rendered step must look like: the filename, page and
manifest entry are all derived from the loop position `i` and the
normalized type tag. -/
theorem stepSlide_rendered_shape {css gurl : String} {t p f : Value} {tot : Nat}
    {s : Value} {i : Int} {fn pg : String} {e : ManifestEntry}
    (h : stepSlide css gurl t p f tot s i = .ok (.rendered fn pg e)) :
    ∃ v stype builder content html,
      pyGetD s "type" (.str "CONTENT") = .ok v ∧
      pyUpper v = .ok stype ∧
      pyGetD s "content" (.obj []) = .ok content ∧
      List.lookup stype BUILDERS = some builder ∧
      builder content i p f = .ok html ∧
      fn = int02d i ++ "-" ++ pyReplace (strLower stype) "_" "-" ++ ".html" ∧
      pg = make_page html css gurl t i tot ∧
      e = ⟨i, stype, fn, "http://localhost:7890/slides/" ++ fn⟩ := by
  unfold stepSlide at h
  rcases h1 : pyGetD s "type" (.str "CONTENT") with e1 | v
  · rw [h1] at h; simp [bind, Except.bind] at h
  rw [h1] at h
  simp only [bind, Except.bind] at h
  rcases h2 : pyUpper v with e2 | stype
  · rw [h2] at h; simp at h
  rw [h2] at h
  simp only at h
  rcases h3 : pyGetD s "content" (.obj []) with e3 | content
  · rw [h3] at h; simp at h
  rw [h3] at h
  simp only at h
  rcases h4 : List.lookup stype BUILDERS with _ | builder
  · rw [h4] at h; simp [pure, Except.pure] at h
  rw [h4] at h
  simp only at h
  rcases h5 : builder content i p f with e5 | html
  · rw [h5] at h; simp [bind, Except.bind] at h
  rw [h5] at h
  simp only [bind, Except.bind, pure, Except.pure, Except.ok.injEq,
    StepRes.rendered.injEq] at h
  obtain ⟨hfn, hpg, he⟩ := h
  subst hfn
  subst hpg
  exact ⟨v, stype, builder, content, html, by rfl, h2, by rfl, h4, h5,
    by rfl, by rfl, he.symm⟩

/-- A slide whose normalized type tag misses the registry always steps
to `skipped` with the warning for its position. -/
theorem stepSlide_skip {s v : Value} {tag : String}
    (hty : pyGetD s "type" (.str "CONTENT") = .ok v)
    (hup : pyUpper v = .ok tag)
    (hlk : List.lookup tag BUILDERS = none)
    (css gurl : String) (t p f : Value) (tot : Nat) (i : Int) :
    stepSlide css gurl t p f tot s i = .ok (.skipped (warnMsg tag i)) := by
  rcases s with s | n | b | _ | l | gs <;> simp [pyGetD] at hty
  subst hty
  unfold stepSlide
  simp [pyGetD, bind, Except.bind, hup, hlk, pure, Except.pure]

/-- Combination of loop outputs around one skipped slide. -/
def skipMerge (L : LoopOut) (w : String) (R : LoopOut) : LoopOut :=
  match L.err with
  | some _ => L
  | none => ⟨L.writes ++ R.writes, L.warnings ++ w :: R.warnings,
      L.files ++ R.files, L.manifest ++ R.manifest, R.err⟩

/-- Splitting the loop at a slide with an unregistered type: that slide
contributes exactly one warning and nothing else — no write, no file,
no manifest entry — and the slides after it keep their original
positions `i + pre.length + 1, …`. -/
theorem buildLoop_skip_split {s v : Value} {tag : String}
    (hty : pyGetD s "type" (.str "CONTENT") = .ok v)
    (hup : pyUpper v = .ok tag)
    (hlk : List.lookup tag BUILDERS = none)
    (css gurl : String) (t p f : Value) (tot : Nat) :
    ∀ (pre post : List Value) (i : Int),
    buildLoop css gurl t p f tot (pre ++ s :: post) i =
      skipMerge (buildLoop css gurl t p f tot pre i)
        (warnMsg tag (i + (pre.length : Int)))
        (buildLoop css gurl t p f tot post (i + (pre.length : Int) + 1)) := by
  intro pre
  induction pre with
  | nil =>
    intro post i
    simp only [List.nil_append, List.length_nil, Nat.cast_zero, add_zero]
    conv_lhs => rw [buildLoop]
    rw [stepSlide_skip hty hup hlk]
    simp [skipMerge, buildLoop]
  | cons p0 pre ih =>
    intro post i
    have harith : i + (((p0 :: pre).length : Nat) : Int) = (i + 1) + (pre.length : Int) := by
      simp only [List.length_cons]
      push_cast
      ring
    rw [List.cons_append, harith]
    conv_lhs => rw [buildLoop]
    conv_rhs => rw [buildLoop]
    rcases hstep : stepSlide css gurl t p f tot p0 i with e0 | st
    · simp [skipMerge]
    rcases st with w0 | ⟨fn, pg, en⟩
    · rw [ih post (i + 1)]
      rcases hL : buildLoop css gurl t p f tot pre (i + 1) with ⟨ws, warns, fls, mfs, err⟩
      rcases err with _ | e
      · simp [skipMerge]
      · simp [skipMerge]
    · rw [ih post (i + 1)]
      rcases hL : buildLoop css gurl t p f tot pre (i + 1) with ⟨ws, warns, fls, mfs, err⟩
      rcases err with _ | e
      · simp [skipMerge]
      · simp [skipMerge]

/-- Every manifest entry of a loop run belongs to a slide of the list,
and its `index`, filename and page are derived from that slide's
original enumeration position `i + j` — skipped slides shift nothing. -/
theorem buildLoop_manifest_pos (css gurl : String) (t p f : Value) (tot : Nat) :
    ∀ (ss : List Value) (i : Int) (e : ManifestEntry),
    e ∈ (buildLoop css gurl t p f tot ss i).manifest →
    ∃ j s pg, ss.get? j = some s ∧
      stepSlide css gurl t p f tot s (i + (j : Int)) = .ok (.rendered e.file pg e) ∧
      e.index = i + (j : Int) := by
  intro ss
  induction ss with
  | nil => intro i e h; simp [buildLoop] at h
  | cons s0 rest ih =>
    intro i e h
    rw [buildLoop] at h
    rcases hstep : stepSlide css gurl t p f tot s0 i with e0 | st
    · rw [hstep] at h; simp at h
    rcases st with w0 | ⟨fn, pg, en⟩
    · rw [hstep] at h
      simp only at h
      obtain ⟨j, s, pg, hj, hs, hidx⟩ := ih (i + 1) e h
      refine ⟨j + 1, s, pg, by simpa using hj, ?_, ?_⟩
      · have hc : i + ((j + 1 : Nat) : Int) = (i + 1) + (j : Int) := by push_cast; ring
        rw [hc]; exact hs
      · have hc : i + ((j + 1 : Nat) : Int) = (i + 1) + (j : Int) := by push_cast; ring
        rw [hc]; exact hidx
    · rw [hstep] at h
      simp only [List.mem_cons] at h
      rcases h with rfl | h
      · obtain ⟨_, _, _, _, _, _, _, _, _, _, _, _, he⟩ :=
          stepSlide_rendered_shape hstep
        refine ⟨0, s0, pg, rfl, ?_, ?_⟩
        · have hf : e.file = fn := by rw [he]
          rw [Nat.cast_zero, add_zero, hf]; exact hstep
        · rw [he, Nat.cast_zero, add_zero]
      · obtain ⟨j, s, pg2, hj, hs, hidx⟩ := ih (i + 1) e h
        refine ⟨j + 1, s, pg2, by simpa using hj, ?_, ?_⟩
        · have hc : i + ((j + 1 : Nat) : Int) = (i + 1) + (j : Int) := by push_cast; ring
          rw [hc]; exact hs
        · have hc : i + ((j + 1 : Nat) : Int) = (i + 1) + (j : Int) := by push_cast; ring
          rw [hc]; exact hidx


/-! Auxiliary lemmas for the claim theorems. -/

theorem planHeader_slides {plan t p f sv : Value}
    (h : planHeader plan = .ok (t, p, f, sv)) :
    pyGetD plan "slides" (.list []) = .ok sv := by
  unfold planHeader at h
  rcases h1 : pyGetD plan "title" (.str "Presentation") with e1 | tv
  · rw [h1] at h; simp [bind, Except.bind] at h
  rw [h1] at h
  simp only [bind, Except.bind] at h
  rcases h2 : pyGetD plan "palette" (.obj []) with e2 | pv
  · rw [h2] at h; simp at h
  rw [h2] at h
  simp only at h
  rcases h3 : pyGetD plan "fonts"
      (.obj [("display", Value.str "Inter"), ("body", Value.str "Inter")]) with e3 | fv
  · rw [h3] at h; simp at h
  rw [h3] at h
  simp only at h
  rcases h4 : pyGetD plan "slides" (.list []) with e4 | sv2
  · rw [h4] at h; simp at h
  rw [h4] at h
  simp only [pure, Except.pure, Except.ok.injEq, Prod.mk.injEq] at h
  obtain ⟨-, -, -, hs⟩ := h
  rw [hs]

theorem buildPrep_iter {p f sv : Value} {css gurl : String} {slides : List Value}
    (h : buildPrep p f sv = .ok (css, gurl, slides)) :
    sv.pyIter = .ok slides := by
  unfold buildPrep at h
  rcases h1 : build_css_vars p f with e1 | c1
  · rw [h1] at h; simp [bind, Except.bind] at h
  rw [h1] at h
  simp only [bind, Except.bind] at h
  rcases h2 : build_google_fonts_url f with e2 | g1
  · rw [h2] at h; simp at h
  rw [h2] at h
  simp only at h
  rcases h3 : sv.pyIter with e3 | sl1
  · rw [h3] at h; simp at h
  rw [h3] at h
  simp only [pure, Except.pure, Except.ok.injEq, Prod.mk.injEq] at h
  obtain ⟨-, -, hs⟩ := h
  rw [hs]

theorem setKey_lookup_self (fs : List (String × Value)) (k : String) (x : Value) :
    List.lookup k (setKey fs k x) = some x := by
  induction fs with
  | nil => simp [setKey, List.lookup]
  | cons kv rest ih =>
    rcases kv with ⟨k0, v0⟩
    by_cases hk : k0 == k
    · have hk2 : k == k0 := by
        obtain rfl : k0 = k := by simpa using hk
        simp
      simp [setKey, hk, List.lookup, hk2]
    · have hk2 : (k == k0) = false := by
        rcases hbe : k == k0
        · rfl
        · obtain rfl : k = k0 := by simpa using hbe
          simp at hk
      simp [setKey, hk, List.lookup, hk2, ih]

theorem setKey_lookup_ne (fs : List (String × Value)) (k k2 : String) (x : Value)
    (h : k2 ≠ k) : List.lookup k2 (setKey fs k x) = List.lookup k2 fs := by
  induction fs with
  | nil =>
    have hne : (k2 == k) = false := beq_eq_false_iff_ne.mpr h
    simp [setKey, List.lookup, hne]
  | cons kv rest ih =>
    rcases kv with ⟨k0, v0⟩
    simp only [setKey]
    by_cases hk : (k0 == k) = true
    · rw [if_pos hk]
      have hke : k0 = k := by simpa using hk
      have h2 : (k2 == k0) = false :=
        beq_eq_false_iff_ne.mpr fun heq => h (heq.trans hke)
      simp [List.lookup, h2]
    · rw [if_neg hk]
      simp only [List.lookup]
      by_cases h0 : (k2 == k0) = true
      · simp [h0]
      · have h0f : (k2 == k0) = false := by simpa using h0
        simp [h0f, ih]

/-- Success of the serve-time rewrite loop on entries that are dicts
carrying a `file` field, with the pointwise effect of each rewrite. -/
theorem mapM_rewrite (port : Int) :
    ∀ {entries : List Value},
    (∀ e ∈ entries, ∃ gs fv, e = .obj gs ∧ List.lookup "file" gs = some fv) →
    ∃ entries2, entries.mapM (rewriteSlideUrl port) = .ok entries2 ∧
      List.Forall₂ (fun e e2 => ∃ fv,
        e.field "file" = some fv ∧
        e2.field "url" = some (.str (liveUrl port fv.pyStr)) ∧
        ∀ k, k ≠ "url" → e2.field k = e.field k) entries entries2 := by
  intro entries
  induction entries with
  | nil => intro _; exact ⟨[], rfl, List.Forall₂.nil⟩
  | cons e rest ih =>
    intro h
    obtain ⟨gs, fv, rfl, hfile⟩ := h e (List.mem_cons_self _ _)
    obtain ⟨rest2, hrest, hrel⟩ := ih fun x hx => h x (List.mem_cons_of_mem _ hx)
    have hone : rewriteSlideUrl port (.obj gs) =
        .ok (.obj (setKey gs "url" (.str (liveUrl port fv.pyStr)))) := by
      unfold rewriteSlideUrl
      simp [pyIndex, hfile, bind, Except.bind, objSet, pure, Except.pure]
    refine ⟨.obj (setKey gs "url" (.str (liveUrl port fv.pyStr))) :: rest2, ?_, ?_⟩
    · rw [List.mapM_cons, hone, hrest]
      rfl
    · refine List.Forall₂.cons ⟨fv, ?_, ?_, ?_⟩ hrel
      · simpa [Value.field] using hfile
      · simp [Value.field, setKey_lookup_self]
      · intro k hk
        simp [Value.field, setKey_lookup_ne gs "url" k _ hk]


set_option maxRecDepth 40000

/-! Concrete fixtures used by the claim theorems. -/

/-- Hero rendered from an empty content record. -/
def heroEmptyFrag : String :=
  fragOf (slide_hero (.obj []) 1 (.obj []) (.obj []))

/-- Agenda rendered from an empty content record. -/
def agendaEmptyFrag : String :=
  fragOf (slide_agenda (.obj []) 1 (.obj []) (.obj []))

/-- Hero rendered with all five fields supplied. -/
def heroFullFrag : String :=
  fragOf (slide_hero (.obj [("title", .str "T"), ("subtitle", .str "S"),
    ("tagline", .str "G"), ("author", .str "A"), ("date", .str "D")])
    1 (.obj []) (.obj []))

/-- Agenda rendered with two items. -/
def agendaItemsFrag : String :=
  fragOf (slide_agenda (.obj [("items", .list [.str "One", .str "Two"])])
    1 (.obj []) (.obj []))

/-- Content slide rendered from an empty content record. -/
def contentEmptyFrag : String :=
  fragOf (slide_content (.obj []) 1 (.obj []) (.obj []))

/-- Content slide rendered with sectionLabel, body, bullets and an
image hint supplied. -/
def contentFullFrag : String :=
  fragOf (slide_content (.obj [("sectionLabel", .str "SL"), ("body", .str "BD"),
    ("bullets", .list [.str "X1", .str "X2"]), ("imageHint", .str "IH")])
    1 (.obj []) (.obj []))

/-- Two-column slide rendered from an empty content record. -/
def twocolEmptyFrag : String :=
  fragOf (slide_two_col (.obj []) 1 (.obj []) (.obj []))

/-- Two-column slide rendered with sectionLabel and a populated left
column. -/
def twocolFullFrag : String :=
  fragOf (slide_two_col (.obj [("sectionLabel", .str "SL"),
    ("leftCol", .obj [("body", .str "LB"), ("bullets", .list [.str "L1"])])])
    1 (.obj []) (.obj []))

/-- Stats slide rendered from an empty content record. -/
def statsEmptyFrag : String :=
  fragOf (slide_stats (.obj []) 1 (.obj []) (.obj []))

/-- Stats slide rendered with one stat that has no fields of its own. -/
def statsBareFrag : String :=
  fragOf (slide_stats (.obj [("stats", .list [.obj []])]) 1 (.obj []) (.obj []))

/-- Stats slide rendered with sectionLabel and one stat carrying a
trend and a description. -/
def statsFullFrag : String :=
  fragOf (slide_stats (.obj [("sectionLabel", .str "SL"),
    ("stats", .list [.obj [("trend", .str "TR"), ("description", .str "DD")]])])
    1 (.obj []) (.obj []))

/-- Quote slide rendered from an empty content record. -/
def quoteEmptyFrag : String :=
  fragOf (slide_quote (.obj []) 1 (.obj []) (.obj []))

/-- Quote slide rendered with attribution and role supplied. -/
def quoteFullFrag : String :=
  fragOf (slide_quote (.obj [("attribution", .str "AN"), ("role", .str "RL")])
    1 (.obj []) (.obj []))

/-- Divider slide rendered from an empty content record. -/
def dividerEmptyFrag : String :=
  fragOf (slide_divider (.obj []) 1 (.obj []) (.obj []))

/-- Divider slide rendered with a description supplied. -/
def dividerFullFrag : String :=
  fragOf (slide_divider (.obj [("description", .str "DS")]) 1 (.obj []) (.obj []))

/-- Closing slide rendered from an empty content record. -/
def closingEmptyFrag : String :=
  fragOf (slide_closing (.obj []) 1 (.obj []) (.obj []))

/-- Closing slide rendered with subheading, cta, one takeaway and
contact info supplied. -/
def closingFullFrag : String :=
  fragOf (slide_closing (.obj [("subheading", .str "SH"), ("cta", .str "CT"),
    ("keyTakeaways", .list [.str "K1"]), ("contactInfo", .str "CC")])
    1 (.obj []) (.obj []))

/-- C2, counterexample: with an empty content record the hero template
still emits a present-but-empty `<h1 class="hero-title"></h1>`, and the
agenda template substitutes the non-empty defaults `Agenda` and
`OVERVIEW` — so absence is not always rendered by omission. -/
theorem C2_counterexample :
    strContains heroEmptyFrag "<h1 class=\"hero-title\"></h1>" = true ∧
    strContains agendaEmptyFrag "<h2 class=\"agenda-heading\">Agenda</h2>" = true ∧
    strContains agendaEmptyFrag "<div class=\"section-label\">OVERVIEW</div>" = true := by
  decide

/-- C2, amended: a field's markup is omitted entirely when absent
exactly for the truthiness-guarded fields of each template (hero
tagline/subtitle/author/date; content sectionLabel/body/bullets/
imageHint; two-col sectionLabel and each column's body and bullets;
stats sectionLabel and each stat's trend and description; quote
attribution/role; divider description; closing subheading/cta/
keyTakeaways/contactInfo; list fields contribute one block per
element, none when empty), and each such field renders when present.
The remaining fields are emitted unconditionally: present-but-empty
elements when absent (hero title; content/two-col/stats headings;
column headings; stat number and label; quote text; divider
sectionTitle), or non-empty defaults (agenda heading `Agenda`, agenda
sectionLabel `OVERVIEW`, closing tagline `THANK YOU`, closing heading
`Let's Build Together`, divider sectionNumber defaulting to the slide
index). -/
theorem C2_amended_conditional_fields :
    (strContains heroEmptyFrag "<div class=\"hero-tagline\">" = false ∧
     strContains heroEmptyFrag "<p class=\"hero-subtitle\">" = false ∧
     strContains heroEmptyFrag "<span class=\"hero-author\">" = false ∧
     strContains heroEmptyFrag "<span class=\"hero-date\">" = false ∧
     strContains agendaEmptyFrag "<div class=\"agenda-item\">" = false ∧
     strContains contentEmptyFrag "<div class=\"section-label\">" = false ∧
     strContains contentEmptyFrag "<p class=\"content-body-text\">" = false ∧
     strContains contentEmptyFrag "<ul class=\"content-bullets\">" = false ∧
     strContains contentEmptyFrag "<div class=\"content-image-placeholder\">" = false ∧
     strContains contentEmptyFrag "<div class=\"content-body content-layout-full\">" = true ∧
     strContains twocolEmptyFrag "<div class=\"section-label\">" = false ∧
     strContains twocolEmptyFrag "<p class=\"col-body\">" = false ∧
     strContains twocolEmptyFrag "<ul class=\"col-bullets\">" = false ∧
     strContains statsEmptyFrag "<div class=\"stat-card\">" = false ∧
     strContains statsEmptyFrag "<div class=\"section-label\">" = false ∧
     strContains statsBareFrag "<div class=\"stat-trend\">" = false ∧
     strContains statsBareFrag "<div class=\"stat-desc\">" = false ∧
     strContains quoteEmptyFrag "<span class=\"quote-name\">" = false ∧
     strContains quoteEmptyFrag "<span class=\"quote-role\">" = false ∧
     strContains dividerEmptyFrag "<p class=\"div-desc\">" = false ∧
     strContains closingEmptyFrag "<p class=\"closing-subheading\">" = false ∧
     strContains closingEmptyFrag "<div class=\"closing-cta\">" = false ∧
     strContains closingEmptyFrag "<div class=\"closing-right\">" = false ∧
     strContains closingEmptyFrag "<div class=\"closing-contact\">" = false) ∧
    (strContains heroFullFrag "<div class=\"hero-tagline\">G</div>" = true ∧
     strContains heroFullFrag "<p class=\"hero-subtitle\">S</p>" = true ∧
     strContains heroFullFrag "<span class=\"hero-author\">A</span>" = true ∧
     strContains heroFullFrag "<span class=\"hero-date\">D</span>" = true ∧
     strContains agendaItemsFrag "<span class=\"agenda-num\">01</span>" = true ∧
     strContains agendaItemsFrag "<span class=\"agenda-text\">One</span>" = true ∧
     strContains agendaItemsFrag "<span class=\"agenda-num\">02</span>" = true ∧
     strContains agendaItemsFrag "<span class=\"agenda-text\">Two</span>" = true ∧
     strContains contentFullFrag "<div class=\"section-label\">SL</div>" = true ∧
     strContains contentFullFrag "<p class=\"content-body-text\">BD</p>" = true ∧
     strContains contentFullFrag "<li class=\"content-bullet\">X1</li>" = true ∧
     strContains contentFullFrag "<li class=\"content-bullet\">X2</li>" = true ∧
     strContains contentFullFrag "<span class=\"content-image-hint\">IH</span>" = true ∧
     strContains contentFullFrag "<div class=\"content-body content-layout-split\">" = true ∧
     strContains twocolFullFrag "<div class=\"section-label\">SL</div>" = true ∧
     strContains twocolFullFrag "<p class=\"col-body\">LB</p>" = true ∧
     strContains twocolFullFrag "<li class=\"col-bullet\">L1</li>" = true ∧
     strContains statsFullFrag "<div class=\"section-label\">SL</div>" = true ∧
     strContains statsFullFrag "<div class=\"stat-trend\">TR</div>" = true ∧
     strContains statsFullFrag "<div class=\"stat-desc\">DD</div>" = true ∧
     strContains quoteFullFrag "<span class=\"quote-name\">AN</span>" = true ∧
     strContains quoteFullFrag "<span class=\"quote-role\">RL</span>" = true ∧
     strContains dividerFullFrag "<p class=\"div-desc\">DS</p>" = true ∧
     strContains closingFullFrag "<p class=\"closing-subheading\">SH</p>" = true ∧
     strContains closingFullFrag "<div class=\"closing-cta\">CT</div>" = true ∧
     strContains closingFullFrag "<div class=\"closing-right\">" = true ∧
     strContains closingFullFrag
       "<li class=\"closing-takeaway\"><span class=\"takeaway-check\">✓</span>K1</li>" = true ∧
     strContains closingFullFrag "<div class=\"closing-contact\">CC</div>" = true) ∧
    (strContains heroEmptyFrag "<h1 class=\"hero-title\"></h1>" = true ∧
     strContains contentEmptyFrag "<h2 class=\"content-heading\"></h2>" = true ∧
     strContains twocolEmptyFrag "<h2 class=\"content-heading\"></h2>" = true ∧
     strContains twocolEmptyFrag "<h3 class=\"col-heading\"></h3>" = true ∧
     strContains statsEmptyFrag "<h2 class=\"content-heading\"></h2>" = true ∧
     strContains statsBareFrag "<div class=\"stat-number\"></div>" = true ∧
     strContains statsBareFrag "<div class=\"stat-label\"></div>" = true ∧
     strContains quoteEmptyFrag "<blockquote class=\"quote-text\"></blockquote>" = true ∧
     strContains dividerEmptyFrag "<h2 class=\"div-title\"></h2>" = true) ∧
    (strContains agendaEmptyFrag "<h2 class=\"agenda-heading\">Agenda</h2>" = true ∧
     strContains agendaEmptyFrag "<div class=\"section-label\">OVERVIEW</div>" = true ∧
     strContains closingEmptyFrag "<div class=\"closing-tagline\">THANK YOU</div>" = true ∧
     strContains closingEmptyFrag
       "<h1 class=\"closing-heading\">Let\x27s Build Together</h1>" = true ∧
     strContains dividerEmptyFrag "<div class=\"div-big-num\">01</div>" = true ∧
     strContains dividerEmptyFrag "SECTION 01" = true) :=
  ⟨by decide, by decide, by decide, by decide⟩

/-- C3, counterexample: render functions do raise on wrong-typed
content — a non-dict element of `stats` hits `.get` on a string
(AttributeError), and a string `sectionNumber` hits the `:02d` format
(ValueError). -/
theorem C3_counterexample :
    exceptOk (slide_stats (.obj [("stats", .list [.str "x"])]) 1 (.obj []) (.obj [])) = false ∧
    exceptOk (slide_divider (.obj [("sectionNumber", .str "3")]) 1 (.obj []) (.obj [])) = false := by
  decide

/-- C3, amended: every render function of the registry terminates
normally and returns a fragment for every content record that is a dict
whose present fields have the shapes the template consumes
(`WFContentB`) — in particular any subset of fields may be absent; only
wrong-typed values (non-iterable list fields, non-dict stat elements or
columns, non-integer `sectionNumber`) raise. -/
theorem C3_amended_render_total_on_wf
    (tagB : String × (Value → Int → Value → Value → Except String String))
    (hmem : tagB ∈ BUILDERS) (c : Value) (i : Int) (p f : Value)
    (hwf : WFContentB c = true) : exceptOk (tagB.2 c i p f) = true := by
  obtain ⟨fs, rfl⟩ : ∃ fs, c = .obj fs := by
    cases c with
    | obj gs => exact ⟨gs, rfl⟩
    | str s => simp [WFContentB] at hwf
    | num n => simp [WFContentB] at hwf
    | bool b => simp [WFContentB] at hwf
    | null => simp [WFContentB] at hwf
    | list l => simp [WFContentB] at hwf
  obtain ⟨tag, builder⟩ := tagB
  simp only [BUILDERS, List.mem_cons, List.not_mem_nil, or_false,
    Prod.mk.injEq] at hmem
  rcases hmem with hB | hB | hB | hB | hB | hB | hB | hB <;> obtain ⟨-, rfl⟩ := hB
  · exact slide_hero_total fs i p f
  · exact slide_agenda_total fs i p f hwf
  · exact slide_content_total fs i p f hwf
  · exact slide_two_col_total fs i p f hwf
  · exact slide_stats_total fs i p f hwf
  · exact slide_quote_total fs i p f
  · exact slide_divider_total fs i p f hwf
  · exact slide_closing_total fs i p f hwf

/-- C3, witness: the amended theorem applied to `STATS` with a
well-formed one-stat record. -/
theorem C3_amended_witness :
    WFContentB (.obj [("stats", .list [.obj [("number", .str "87%")]])]) = true ∧
    ("STATS", slide_stats) ∈ BUILDERS ∧
    exceptOk (slide_stats (.obj [("stats", .list [.obj [("number", .str "87%")]])])
      1 (.obj []) (.obj [])) = true :=
  ⟨by decide, by simp [BUILDERS],
   C3_amended_render_total_on_wf ("STATS", slide_stats) (by simp [BUILDERS])
     (.obj [("stats", .list [.obj [("number", .str "87%")]])]) 1 (.obj []) (.obj [])
     (by decide)⟩

/-- C7: for every fonts mapping (any list of family names, empty or
with duplicates), the font URL's term list contains the fallback term
exactly once, one term per distinct custom family (spaces already
normalized to `+` by `termOfFamily`), nothing else, sorted, and the URL
is the sorted join. -/
theorem C7_fonts_url (names : List String) :
    (gfontsTerms names).count interTerm = 1 ∧
    (∀ name ∈ names, (gfontsTerms names).count (termOfFamily name) = 1) ∧
    (∀ t ∈ gfontsTerms names, t = interTerm ∨ ∃ n ∈ names, t = termOfFamily n) ∧
    List.Sorted strLe (gfontsTerms names) ∧
    gfontsUrl names = "https://fonts.googleapis.com/css2?" ++
      String.intercalate "&" (gfontsTerms names) ++ "&display=swap" := by
  have hnd : ((names.map termOfFamily ++ [interTerm]).dedup).Nodup :=
    List.nodup_dedup _
  have hperm : List.Perm (gfontsTerms names)
      ((names.map termOfFamily ++ [interTerm]).dedup) :=
    List.perm_insertionSort _ _
  refine ⟨?_, ?_, ?_, ?_, rfl⟩
  · rw [hperm.count_eq]
    exact List.count_eq_one_of_mem hnd (List.mem_dedup.mpr (by simp))
  · intro name hn
    rw [hperm.count_eq]
    exact List.count_eq_one_of_mem hnd
      (List.mem_dedup.mpr (List.mem_append_left _ (List.mem_map_of_mem _ hn)))
  · intro t ht
    have hm := List.mem_dedup.mp (hperm.mem_iff.mp ht)
    rcases List.mem_append.mp hm with hmap | hone
    · obtain ⟨n, hn, rfl⟩ := List.mem_map.mp hmap
      exact Or.inr ⟨n, hn, rfl⟩
    · simp only [List.mem_singleton] at hone
      exact Or.inl hone
  · exact List.sorted_insertionSort _ _

/-- C7, witness: the theorem applied to a one-font mapping whose family
name contains a space. -/
theorem C7_fonts_url_witness :
    ("Space Grotesk" ∈ ["Space Grotesk"]) ∧
    (gfontsTerms ["Space Grotesk"]).count interTerm = 1 ∧
    (gfontsTerms ["Space Grotesk"]).count (termOfFamily "Space Grotesk") = 1 :=
  ⟨by decide, (C7_fonts_url ["Space Grotesk"]).1,
   (C7_fonts_url ["Space Grotesk"]).2.1 "Space Grotesk" (by decide)⟩


/-- Hero rendered with markup-significant characters in the title. -/
def heroMarkupFrag : String :=
  fragOf (slide_hero (.obj [("title", .str "<b>&\"x\"</b>")]) 1 (.obj []) (.obj []))

/-! Content records supplying the same string `s` to every content
field a template reads (list fields as one-element lists, columns and
stats as fully populated records), used to prove that every
interpolation point passes the value through verbatim. -/

def heroAll (s : String) : Value :=
  .obj [("title", .str s), ("subtitle", .str s), ("tagline", .str s),
    ("author", .str s), ("date", .str s)]

def agendaAll (s : String) : Value :=
  .obj [("heading", .str s), ("sectionLabel", .str s), ("items", .list [.str s])]

def contentAll (s : String) : Value :=
  .obj [("heading", .str s), ("sectionLabel", .str s), ("body", .str s),
    ("bullets", .list [.str s]), ("imageHint", .str s)]

def colAll (s : String) : Value :=
  .obj [("heading", .str s), ("body", .str s), ("bullets", .list [.str s])]

def twocolAll (s : String) : Value :=
  .obj [("heading", .str s), ("sectionLabel", .str s),
    ("leftCol", colAll s), ("rightCol", colAll s)]

def statsAll (s : String) : Value :=
  .obj [("heading", .str s), ("sectionLabel", .str s),
    ("stats", .list [.obj [("number", .str s), ("label", .str s),
      ("trend", .str s), ("description", .str s)]])]

def quoteAll (s : String) : Value :=
  .obj [("quote", .str s), ("attribution", .str s), ("role", .str s)]

def dividerAll (s : String) : Value :=
  .obj [("sectionTitle", .str s), ("description", .str s)]

def closingAll (s : String) : Value :=
  .obj [("tagline", .str s), ("heading", .str s), ("subheading", .str s),
    ("keyTakeaways", .list [.str s]), ("cta", .str s), ("contactInfo", .str s)]

/-- C9: every string-valued content field of every render function is
interpolated into the fragment verbatim, character for character, with
no HTML escaping: with every field of a template set to the same
non-empty string `s`, the fragment is exactly the template's literal
chunks with `s` inserted at each of the template's interpolation
points (one equation per builder, covering all fields including
list-element, column and stat-record fields); and markup-significant
characters supplied in content appear unescaped (no `&lt;`/`&amp;`/
`&quot;` entities are introduced). -/
theorem C9_verbatim_interpolation (s : String) (hs : s.isEmpty = false) :
    (slide_hero (heroAll s) 1 (.obj []) (.obj []) =
      .ok (hero_0 ++ ("<div class=\"hero-tagline\">" ++ (s ++ ("</div>" ++
        (hero_2 ++ (s ++ (hero_4 ++ ("<span class=\"hero-author\">" ++ (s ++ ("</span>" ++
        (hero_6 ++ ("<span class=\"hero-sep\">·</span><span class=\"hero-date\">" ++ (s ++ ("</span>" ++
        (hero_8 ++ ("<p class=\"hero-subtitle\">" ++ (s ++ ("</p>" ++ hero_10))))))))))))))))))) ∧
    (slide_agenda (agendaAll s) 1 (.obj []) (.obj []) =
      .ok (agenda_0 ++ (s ++ (agenda_2 ++ (s ++ (agenda_4 ++
        (agendaItem_0 ++ ("01" ++ (agendaItem_2 ++ (s ++
        (agendaItem_4 ++ (agenda_6 ++ ("01" ++ agenda_8))))))))))))) ∧
    (slide_content (contentAll s) 1 (.obj []) (.obj []) =
      .ok (content_0 ++ ("<div class=\"section-label\">" ++ (s ++ ("</div>" ++
        (content_2 ++ (s ++ (content_4 ++ ("content-layout-split" ++
        (content_6 ++ ("<p class=\"content-body-text\">" ++ (s ++ ("</p>" ++
        (content_8 ++ ("<ul class=\"content-bullets\">" ++ ("<li class=\"content-bullet\">" ++
        (s ++ ("</li></ul>" ++ (content_10 ++ (contentImage_0 ++ (s ++ (contentImage_2 ++
        (content_12 ++ ("01" ++ content_14)))))))))))))))))))))))) ∧
    (slide_two_col (twocolAll s) 1 (.obj []) (.obj []) =
      .ok (twocol_0 ++ ("<div class=\"section-label\">" ++ (s ++ ("</div>" ++
        (twocol_2 ++ (s ++ (twocol_4 ++
        (twocolCard_0 ++ (s ++ (twocolCard_2 ++ ("<p class=\"col-body\">" ++ (s ++ ("</p>" ++
        (twocolCard_4 ++ ("<ul class=\"col-bullets\">" ++ ("<li class=\"col-bullet\">" ++
        (s ++ ("</li></ul>" ++ (twocolCard_6 ++
        (twocol_6 ++
        (twocolCard_0 ++ (s ++ (twocolCard_2 ++ ("<p class=\"col-body\">" ++ (s ++ ("</p>" ++
        (twocolCard_4 ++ ("<ul class=\"col-bullets\">" ++ ("<li class=\"col-bullet\">" ++
        (s ++ ("</li></ul>" ++ (twocolCard_6 ++
        (twocol_8 ++ ("01" ++ twocol_10))))))))))))))))))))))))))))))))))) ∧
    (slide_stats (statsAll s) 1 (.obj []) (.obj []) =
      .ok (stats_0 ++ ("<div class=\"section-label\">" ++ (s ++ ("</div>" ++
        (stats_2 ++ (s ++ (stats_4 ++
        (statsCard_0 ++ (s ++ (statsCard_2 ++ (s ++ (statsCard_4 ++
        ("<div class=\"stat-trend\">" ++ (s ++ ("</div>" ++ (statsCard_6 ++
        ("<div class=\"stat-desc\">" ++ (s ++ ("</div>" ++ (statsCard_8 ++
        (stats_6 ++ ("01" ++ stats_8))))))))))))))))))))))) ∧
    (slide_quote (quoteAll s) 1 (.obj []) (.obj []) =
      .ok (quote_0 ++ (s ++ (quote_2 ++ ("<span class=\"quote-name\">" ++ (s ++ ("</span>" ++
        (quote_4 ++ ("<span class=\"quote-role\">" ++ (s ++ ("</span>" ++
        (quote_6 ++ ("01" ++ quote_8))))))))))))) ∧
    (slide_divider (dividerAll s) 1 (.obj []) (.obj []) =
      .ok (divider_0 ++ ("01" ++ (divider_2 ++ ("01" ++ (divider_4 ++ (s ++
        (divider_6 ++ ("<p class=\"div-desc\">" ++ (s ++ ("</p>" ++ divider_8))))))))))) ∧
    (slide_closing (closingAll s) 1 (.obj []) (.obj []) =
      .ok (closing_0 ++ (s ++ (closing_2 ++ (s ++ (closing_4 ++
        ("<p class=\"closing-subheading\">" ++ (s ++ ("</p>" ++ (closing_6 ++
        ("<div class=\"closing-cta\">" ++ (s ++ ("</div>" ++ (closing_8 ++
        (closingRight_0 ++
        ("<li class=\"closing-takeaway\"><span class=\"takeaway-check\">✓</span>" ++
        (s ++ ("</li>" ++ (closingRight_2 ++ (closing_10 ++
        ("<div class=\"closing-contact\">" ++ (s ++ ("</div>" ++
        closing_12))))))))))))))))))))))) ∧
    (strContains heroMarkupFrag "<h1 class=\"hero-title\"><b>&\"x\"</b></h1>" = true ∧
     strContains heroMarkupFrag "&lt;" = false ∧
     strContains heroMarkupFrag "&amp;" = false ∧
     strContains heroMarkupFrag "&quot;" = false) := by
  refine ⟨?_, ?_, ?_, ?_, ?_, ?_, ?_, ?_, by decide⟩
  · simp [heroAll, slide_hero, pyGetD, List.lookup, bind, Except.bind, pure, Except.pure,
      Value.truthy, Value.pyStr, String.append_assoc, String.append_empty,
      String.empty_append, hs]
  · simp [agendaAll, slide_agenda, agendaItemsHtml, List.enum, List.enumFrom, String.join,
      List.foldl, pyGetD, List.lookup, bind, Except.bind, pure, Except.pure,
      Value.truthy, Value.pyIter, Value.pyStr, String.append_assoc, String.append_empty,
      String.empty_append, hs, show nat02d 1 = "01" from rfl, show int02d 1 = "01" from rfl]
  · simp [contentAll, slide_content, contentBulletsHtml, String.join, List.foldl, pyGetD,
      List.lookup, bind, Except.bind, pure, Except.pure, Value.truthy, Value.pyIter,
      Value.pyStr, String.append_assoc, String.append_empty, String.empty_append, hs,
      show int02d 1 = "01" from rfl]
  · simp [twocolAll, colAll, slide_two_col, col_html, String.join, pyGetD,
      List.lookup, bind, Except.bind, pure, Except.pure, Value.truthy, Value.pyIter,
      Value.pyStr, String.append_assoc, String.append_empty, String.empty_append, hs,
      show int02d 1 = "01" from rfl]
  · simp [statsAll, slide_stats, statsCardsHtml, pyGetD, List.lookup, bind, Except.bind,
      pure, Except.pure, Value.truthy, Value.pyIter, Value.pyStr, String.append_assoc,
      String.append_empty, String.empty_append, hs, show int02d 1 = "01" from rfl]
  · simp [quoteAll, slide_quote, pyGetD, List.lookup, bind, Except.bind, pure, Except.pure,
      Value.truthy, Value.pyStr, String.append_assoc, String.append_empty,
      String.empty_append, hs, show int02d 1 = "01" from rfl]
  · simp [dividerAll, slide_divider, pyGetD, List.lookup, bind, Except.bind, pure,
      Except.pure, Value.truthy, Value.pyStr, format02d, String.append_assoc,
      String.append_empty, String.empty_append, hs, show int02d 1 = "01" from rfl]
  · simp [closingAll, slide_closing, takeawayHtml, String.join, List.foldl, pyGetD,
      List.lookup, bind, Except.bind, pure, Except.pure, Value.truthy, Value.pyIter,
      Value.pyStr, String.append_assoc, String.append_empty, String.empty_append, hs]

/-- C9, witness: the theorem applied at a markup-laden string, showing
the hero tagline block carries it through unescaped. -/
theorem C9_verbatim_interpolation_witness :
    ("<b>&x</b>" : String).isEmpty = false ∧
    strContains (fragOf (slide_hero (heroAll "<b>&x</b>") 1 (.obj []) (.obj [])))
      "<div class=\"hero-tagline\"><b>&x</b></div>" = true := by
  refine ⟨by decide, ?_⟩
  have h := (C9_verbatim_interpolation "<b>&x</b>" (by decide)).1
  rw [h]
  decide

/-- C6: rendering is deterministic. Every registry render function and
the page assembler are pure (two runs of the same call are equal), and
the font URL does not depend on the iteration order of the family set:
any permutation of the distinct family terms sorts and joins to the
same URL. -/
theorem C6_determinism :
    (∀ b ∈ BUILDERS, ∀ (c : Value) (i : Int) (p f : Value),
      b.2 c i p f = b.2 c i p f) ∧
    (∀ (frag css gurl : String) (t : Value) (i : Int) (tot : Nat),
      make_page frag css gurl t i tot = make_page frag css gurl t i tot) ∧
    (∀ (names l : List String),
      List.Perm l ((names.map termOfFamily ++ [interTerm]).dedup) →
      "https://fonts.googleapis.com/css2?" ++
          String.intercalate "&" (List.insertionSort strLe l) ++ "&display=swap" =
        gfontsUrl names) := by
  refine ⟨fun _ _ _ _ _ _ => rfl, fun _ _ _ _ _ _ => rfl, fun names l hperm => ?_⟩
  have h1 : List.Sorted strLe (List.insertionSort strLe l) :=
    List.sorted_insertionSort _ _
  have h2 : List.Sorted strLe (gfontsTerms names) :=
    List.sorted_insertionSort _ _
  have hp : List.Perm (List.insertionSort strLe l) (gfontsTerms names) :=
    (List.perm_insertionSort _ l).trans
      (hperm.trans (List.perm_insertionSort _ _).symm)
  rw [List.eq_of_perm_of_sorted hp h1 h2]
  rfl

/-- C6, witness: the permutation branch applied to the reversed family
set of a one-font mapping, and purity applied to the hero builder. -/
theorem C6_determinism_witness :
    List.Perm [interTerm, termOfFamily "DM Sans"]
      ((["DM Sans"].map termOfFamily ++ [interTerm]).dedup) ∧
    ("HERO", slide_hero) ∈ BUILDERS ∧
    "https://fonts.googleapis.com/css2?" ++
        String.intercalate "&"
          (List.insertionSort strLe [interTerm, termOfFamily "DM Sans"]) ++
        "&display=swap" =
      gfontsUrl ["DM Sans"] :=
  ⟨by decide, by simp [BUILDERS],
   C6_determinism.2.2 ["DM Sans"] [interTerm, termOfFamily "DM Sans"] (by decide)⟩

/-- C8: the serve-time rewrite replaces exactly the `url` field of every
manifest entry with the live-port URL built from that entry's `file`
field; `index`, `type` and `file` of every entry, the manifest's
`title`, and every other top-level field are unchanged. -/
theorem C8_url_rewrite (port : Int) (fs : List (String × Value)) (entries : List Value)
    (hsl : List.lookup "slides" fs = some (.list entries))
    (hfile : ∀ e ∈ entries, ∃ gs fv, e = .obj gs ∧ List.lookup "file" gs = some fv) :
    ∃ entries2,
      rewriteUrls port (.obj fs) = .ok (.obj (setKey fs "slides" (.list entries2))) ∧
      (∀ k, k ≠ "slides" →
        List.lookup k (setKey fs "slides" (.list entries2)) = List.lookup k fs) ∧
      List.Forall₂ (fun e e2 => ∃ fv,
        e.field "file" = some fv ∧
        e2.field "url" = some (.str (liveUrl port fv.pyStr)) ∧
        ∀ k, k ≠ "url" → e2.field k = e.field k) entries entries2 := by
  obtain ⟨entries2, hmap, hrel⟩ := mapM_rewrite port hfile
  refine ⟨entries2, ?_, ?_, hrel⟩
  · unfold rewriteUrls
    simp only [pyIndex, hsl, bind, Except.bind, Value.pyIter]
    rw [hmap]
    simp [objSet, pure, Except.pure]
  · intro k hk
    exact setKey_lookup_ne fs "slides" k _ hk

/-- One build-time manifest entry, as written by `build-slides.py`. -/
def demoEntry : Value :=
  .obj [("index", .num 1), ("type", .str "HERO"), ("file", .str "01-hero.html"),
    ("url", .str "http://localhost:7890/slides/01-hero.html")]

/-- The loaded `slide-urls.json` data for the witness. -/
def demoUrlData : List (String × Value) :=
  [("title", .str "Deck"), ("slides", .list [demoEntry])]

/-- C8, witness: the rewrite theorem applied to a one-entry manifest at
port 7893. -/
theorem C8_url_rewrite_witness :
    List.lookup "slides" demoUrlData = some (.list [demoEntry]) ∧
    ∃ entries2,
      rewriteUrls 7893 (.obj demoUrlData) =
        .ok (.obj (setKey demoUrlData "slides" (.list entries2))) ∧
      (∀ k, k ≠ "slides" →
        List.lookup k (setKey demoUrlData "slides" (.list entries2)) =
          List.lookup k demoUrlData) ∧
      List.Forall₂ (fun e e2 => ∃ fv,
        e.field "file" = some fv ∧
        e2.field "url" = some (.str (liveUrl 7893 fv.pyStr)) ∧
        ∀ k, k ≠ "url" → e2.field k = e.field k) [demoEntry] entries2 :=
  ⟨rfl, C8_url_rewrite 7893 demoUrlData [demoEntry] rfl
    (by
      intro e he
      simp only [List.mem_singleton] at he
      subst he
      exact ⟨[("index", .num 1), ("type", .str "HERO"), ("file", .str "01-hero.html"),
        ("url", .str "http://localhost:7890/slides/01-hero.html")],
        .str "01-hero.html", rfl, rfl⟩)⟩


instance {e a : Type} [DecidableEq e] [DecidableEq a] : DecidableEq (Except e a) :=
  fun x y =>
    match x, y with
    | .ok v, .ok w =>
      if h : v = w then isTrue (by rw [h])
      else isFalse (by intro hh; exact h (by injection hh))
    | .error v, .error w =>
      if h : v = w then isTrue (by rw [h])
      else isFalse (by intro hh; exact h (by injection hh))
    | .ok _, .error _ => isFalse (by intro hh; exact Except.noConfusion hh)
    | .error _, .ok _ => isFalse (by intro hh; exact Except.noConfusion hh)

/-- A plan whose slide list is empty. -/
def planEmptySlides : Value := .obj [("slides", .list [])]

/-- A plan whose only slide has an unrecognized type. -/
def planOneBogus : Value := .obj [("slides", .list [.obj [("type", .str "BOGUS")]])]

/-- A one-slide plan that renders. -/
def planOneHero : Value :=
  .obj [("slides", .list [.obj [("type", .str "HERO"),
    ("content", .obj [("title", .str "Launch")])]])]

/-- The spec scenario: two slides, the second of type `BOGUS`. -/
def planTwoSecondBogus : Value :=
  .obj [("slides", .list [.obj [("type", .str "HERO"),
    ("content", .obj [("title", .str "Launch")])],
    .obj [("type", .str "BOGUS")]])]

/-- A two-slide plan whose first slide is skipped. -/
def planFirstBogus : Value :=
  .obj [("slides", .list [.obj [("type", .str "BOGUS")],
    .obj [("type", .str "HERO")]])]

/-- The build result of the two-slide scenario. -/
def twoRes : BuildResult :=
  ⟨[⟨1, "HERO", "01-hero.html", "http://localhost:7890/slides/01-hero.html"⟩],
   ["01-hero.html"], "http://localhost:7890/slides/01-hero.html"⟩

/-- The slide list of `planTwoSecondBogus`. -/
def twoSlides : List Value :=
  [.obj [("type", .str "HERO"), ("content", .obj [("title", .str "Launch")])],
   .obj [("type", .str "BOGUS")]]

/-- C1, counterexample: in a plan whose first slide is skipped for an
unrecognized type, the only rendered slide — render-order position 1 —
receives manifest index 2 and filename prefix `02-`, its original plan
position, not the claimed contiguous render-order number 1. -/
theorem C1_counterexample :
    (mainModel planFirstBogus).outcome.toOption.map BuildResult.manifest =
      some [⟨2, "HERO", "02-hero.html", "http://localhost:7890/slides/02-hero.html"⟩] ∧
    ¬ ((2 : Int) = 1) :=
  ⟨by decide, by decide⟩

/-- C1, amended: the displayed slide number, numeric filename prefix
and manifest index of every rendered slide equal its original 1-based
position in the plan's slide list (`1 + j`); skipped slides leave gaps
rather than causing renumbering. -/
theorem C1_amended_index_is_plan_position (plan : Value) (r : BuildResult)
    (slides : List Value)
    (hok : (mainModel plan).outcome = .ok r)
    (hsl : planSlidesOf plan = .ok slides) :
    ∀ e ∈ r.manifest, ∃ (j : Nat) (s : Value) (pg css gurl : String)
      (tv pv fv : Value),
      slides.get? j = some s ∧
      e.index = 1 + (j : Int) ∧
      stepSlide css gurl tv pv fv slides.length s (1 + (j : Int)) =
        .ok (.rendered e.file pg e) ∧
      e.file = int02d (1 + (j : Int)) ++ "-" ++
        pyReplace (strLower e.type) "_" "-" ++ ".html" := by
  intro e he
  obtain ⟨rman, rfiles, rurl⟩ := r
  rcases hh : planHeader plan with e0 | ⟨tv, pv, fv, sv⟩
  · unfold mainModel at hok; simp [hh] at hok
  rcases htr : sv.truthy with _ | _
  · unfold mainModel at hok; simp [hh, htr] at hok
  rcases hp : buildPrep pv fv sv with e1 | ⟨css, gurl, slides2⟩
  · unfold mainModel at hok; simp [hh, htr, hp] at hok
  have hs2 : slides2 = slides := by
    have h1 := planHeader_slides hh
    have h2 := buildPrep_iter hp
    unfold planSlidesOf at hsl
    rw [h1] at hsl
    simp only [bind, Except.bind] at hsl
    rw [h2] at hsl
    simpa using hsl
  subst hs2
  rcases hLoop : buildLoop css gurl tv pv fv slides2.length slides2 1
    with ⟨ws, warns, fls, mfs, err⟩
  rcases err with _ | e2
  · rcases fls with _ | ⟨f0, rest⟩
    · unfold mainModel at hok; simp [hh, htr, hp, hLoop] at hok
    · unfold mainModel at hok
      simp only [hh, htr, Bool.not_true, Bool.false_eq_true, if_false,
        hp, hLoop] at hok
      obtain ⟨h1, h2, h3⟩ : mfs = rman ∧ f0 :: rest = rfiles ∧
          "http://localhost:7890/slides/" ++ f0 = rurl := by
        simpa using hok
      have hmem : e ∈ (buildLoop css gurl tv pv fv slides2.length slides2 1).manifest := by
        rw [hLoop]
        simp only
        rw [h1]
        exact he
      obtain ⟨j, s, pg, hj, hstep, hidx⟩ :=
        buildLoop_manifest_pos css gurl tv pv fv slides2.length slides2 1 e hmem
      obtain ⟨_, stype, _, _, _, _, _, _, _, _, hfn, _, he2⟩ :=
        stepSlide_rendered_shape hstep
      refine ⟨j, s, pg, css, gurl, tv, pv, fv, hj, hidx, hstep, ?_⟩
      have htype : e.type = stype := by rw [he2]
      rw [htype]
      exact hfn
  · unfold mainModel at hok; simp [hh, htr, hp, hLoop] at hok

/-- C1, amended, witness: the amended theorem applied to the two-slide
scenario plan, whose sole manifest entry sits at plan position 0 with
index `1 + 0`. -/
theorem C1_amended_witness :
    (mainModel planTwoSecondBogus).outcome = .ok twoRes ∧
    planSlidesOf planTwoSecondBogus = .ok twoSlides ∧
    (⟨1, "HERO", "01-hero.html", "http://localhost:7890/slides/01-hero.html"⟩ :
      ManifestEntry) ∈ twoRes.manifest ∧
    ∃ (j : Nat) (s : Value) (pg css gurl : String) (tv pv fv : Value),
      twoSlides.get? j = some s ∧
      (⟨1, "HERO", "01-hero.html", "http://localhost:7890/slides/01-hero.html"⟩ :
        ManifestEntry).index = 1 + (j : Int) ∧
      stepSlide css gurl tv pv fv twoSlides.length s (1 + (j : Int)) =
        .ok (.rendered "01-hero.html" pg
          ⟨1, "HERO", "01-hero.html", "http://localhost:7890/slides/01-hero.html"⟩) ∧
      ("01-hero.html" : String) = int02d (1 + (j : Int)) ++ "-" ++
        pyReplace (strLower "HERO") "_" "-" ++ ".html" :=
  ⟨by decide, by rfl, by decide,
   C1_amended_index_is_plan_position planTwoSecondBogus twoRes twoSlides
     (by decide) (by rfl) _ (by decide)⟩

/-- C4: an empty slide list is a fatal error before any file is
written; and a build in which zero slides rendered ends in a fatal
error (the `slide_files[0]` IndexError) instead of completing — a
successful outcome always carries a non-empty rendered-file list. -/
theorem C4_fatal_empty_and_zero_rendered :
    (∀ (plan t p f : Value), planHeader plan = .ok (t, p, f, .list []) →
      mainModel plan = ⟨[], [], .error .noSlides⟩) ∧
    (∀ (plan t p f slidesV : Value) (css gurl : String) (slides : List Value),
      planHeader plan = .ok (t, p, f, slidesV) →
      slidesV.truthy = true →
      buildPrep p f slidesV = .ok (css, gurl, slides) →
      (buildLoop css gurl t p f slides.length slides 1).err = none →
      (buildLoop css gurl t p f slides.length slides 1).files = [] →
      (mainModel plan).outcome = .error .indexError) ∧
    (∀ (plan : Value) (r : BuildResult),
      (mainModel plan).outcome = .ok r → r.files ≠ []) := by
  refine ⟨?_, ?_, ?_⟩
  · intro plan t p f hh
    unfold mainModel
    rw [hh]
    simp [Value.truthy, List.isEmpty]
  · intro plan t p f slidesV css gurl slides hh htr hp hnoerr hempty
    rcases hLoop : buildLoop css gurl t p f slides.length slides 1
      with ⟨ws, warns, fls, mfs, err⟩
    have herr : err = none := by rw [hLoop] at hnoerr; exact hnoerr
    have hfls : fls = [] := by rw [hLoop] at hempty; exact hempty
    subst herr
    subst hfls
    unfold mainModel
    simp [hh, htr, hp, hLoop]
  · intro plan r hok
    obtain ⟨rman, rfiles, rurl⟩ := r
    rcases hh : planHeader plan with e0 | ⟨tv, pv, fv, sv⟩
    · unfold mainModel at hok; simp [hh] at hok
    rcases htr : sv.truthy with _ | _
    · unfold mainModel at hok; simp [hh, htr] at hok
    rcases hp : buildPrep pv fv sv with e1 | ⟨css, gurl, slides⟩
    · unfold mainModel at hok; simp [hh, htr, hp] at hok
    rcases hLoop : buildLoop css gurl tv pv fv slides.length slides 1
      with ⟨ws, warns, fls, mfs, err⟩
    rcases err with _ | e2
    · rcases fls with _ | ⟨f0, rest⟩
      · unfold mainModel at hok; simp [hh, htr, hp, hLoop] at hok
      · unfold mainModel at hok
        simp only [hh, htr, Bool.not_true, Bool.false_eq_true, if_false,
          hp, hLoop] at hok
        obtain ⟨h1, h2, h3⟩ : mfs = rman ∧ f0 :: rest = rfiles ∧
            "http://localhost:7890/slides/" ++ f0 = rurl := by
          simpa using hok
        simp [← h2]
    · unfold mainModel at hok; simp [hh, htr, hp, hLoop] at hok

/-- C4, witness: the empty-slides branch on a concrete empty plan, the
IndexError branch on an all-skipped plan, and the success branch on a
one-hero plan. -/
theorem C4_witness :
    mainModel planEmptySlides = ⟨[], [], .error .noSlides⟩ ∧
    (mainModel planOneBogus).outcome = .error .indexError ∧
    ((mainModel planOneHero).outcome = .ok
      ⟨[⟨1, "HERO", "01-hero.html", "http://localhost:7890/slides/01-hero.html"⟩],
       ["01-hero.html"], "http://localhost:7890/slides/01-hero.html"⟩ ∧
     (⟨[⟨1, "HERO", "01-hero.html", "http://localhost:7890/slides/01-hero.html"⟩],
       ["01-hero.html"], "http://localhost:7890/slides/01-hero.html"⟩ :
        BuildResult).files ≠ []) :=
  ⟨C4_fatal_empty_and_zero_rendered.1 planEmptySlides _ _ _ rfl,
   C4_fatal_empty_and_zero_rendered.2.1 planOneBogus _ _ _ _ _ _ _
     rfl rfl rfl rfl rfl,
   by decide,
   C4_fatal_empty_and_zero_rendered.2.2 planOneHero _ (by decide)⟩

/-- C5: a slide with an unregistered type tag contributes exactly one
warning to the build and nothing else — no page write, no filename, no
manifest entry — while every other slide is processed as if at its own
position; and the spec's two-slide scenario (second slide `BOGUS`)
succeeds with exactly one manifest entry of index 1, the file
`01-hero.html`, no `02-` file, and one warning. -/
theorem C5_unknown_type_skipped :
    (∀ (s v : Value) (tag : String),
      pyGetD s "type" (.str "CONTENT") = .ok v →
      pyUpper v = .ok tag →
      List.lookup tag BUILDERS = none →
      ∀ (css gurl : String) (t p f : Value) (tot : Nat)
        (pre post : List Value) (i : Int),
      buildLoop css gurl t p f tot (pre ++ s :: post) i =
        skipMerge (buildLoop css gurl t p f tot pre i)
          (warnMsg tag (i + (pre.length : Int)))
          (buildLoop css gurl t p f tot post (i + (pre.length : Int) + 1))) ∧
    (mainModel planTwoSecondBogus).outcome = .ok twoRes ∧
    (mainModel planTwoSecondBogus).warnings = [warnMsg "BOGUS" 2] ∧
    (mainModel planTwoSecondBogus).writes.map Write.path =
      ["slides/01-hero.html", "index.html", "slide-urls.json"] := by
  refine ⟨?_, by decide⟩
  intro s v tag hty hup hlk css gurl t p f tot pre post i
  exact buildLoop_skip_split hty hup hlk css gurl t p f tot pre post i

/-- C5, witness: the skip equation applied to a concrete one-slide
`BOGUS` plan segment. -/
theorem C5_witness :
    pyGetD (.obj [("type", .str "BOGUS")]) "type" (.str "CONTENT") =
      .ok (.str "BOGUS") ∧
    pyUpper (.str "BOGUS") = .ok "BOGUS" ∧
    List.lookup "BOGUS" BUILDERS = none ∧
    buildLoop "c" "g" (.str "T") (.obj []) (.obj []) 1
        [.obj [("type", .str "BOGUS")]] 1 =
      skipMerge (buildLoop "c" "g" (.str "T") (.obj []) (.obj []) 1 [] 1)
        (warnMsg "BOGUS" 1)
        (buildLoop "c" "g" (.str "T") (.obj []) (.obj []) 1 [] 2) :=
  ⟨rfl, rfl, rfl,
   C5_unknown_type_skipped.1 (.obj [("type", .str "BOGUS")]) (.str "BOGUS")
     "BOGUS" rfl rfl rfl "c" "g" (.str "T") (.obj []) (.obj []) 1 [] [] 1⟩

/-- C10: a slide record with no `type` field at all is rendered as a
`CONTENT` slide (the default tag is `"CONTENT"`, which the registry
maps to `slide_content`), never skipped; and a skip can only arise from
a present `type` value whose normalization falls outside the registry. -/
theorem C10_absent_type_renders_content :
    (∀ (fs : List (String × Value)) (css gurl : String) (t p f : Value)
        (tot : Nat) (i : Int),
      List.lookup "type" fs = none →
      stepSlide css gurl t p f tot (.obj fs) i =
        (slide_content ((List.lookup "content" fs).getD (.obj [])) i p f).map
          (fun html => .rendered
            (int02d i ++ "-" ++ pyReplace (strLower "CONTENT") "_" "-" ++ ".html")
            (make_page html css gurl t i tot)
            ⟨i, "CONTENT",
             int02d i ++ "-" ++ pyReplace (strLower "CONTENT") "_" "-" ++ ".html",
             "http://localhost:7890/slides/" ++
               (int02d i ++ "-" ++ pyReplace (strLower "CONTENT") "_" "-" ++ ".html")⟩)) ∧
    pyReplace (strLower "CONTENT") "_" "-" = "content" ∧
    List.lookup "CONTENT" BUILDERS = some slide_content ∧
    (∀ (slide : Value) (css gurl : String) (t p f : Value) (tot : Nat)
        (i : Int) (w : String),
      stepSlide css gurl t p f tot slide i = .ok (.skipped w) →
      ∃ gs v tag, slide = .obj gs ∧ List.lookup "type" gs = some v ∧
        pyUpper v = .ok tag ∧ List.lookup tag BUILDERS = none) := by
  refine ⟨?_, rfl, rfl, ?_⟩
  · intro fs css gurl t p f tot i h
    unfold stepSlide
    rcases hc : slide_content ((List.lookup "content" fs).getD (.obj [])) i p f
      with e0 | html <;>
    simp [pyGetD, h, pyUpper, bind, Except.bind, pure, Except.pure, Except.map, hc,
      show strUpper "CONTENT" = "CONTENT" from rfl,
      show List.lookup "CONTENT" BUILDERS = some slide_content from rfl]
  · intro slide css gurl t p f tot i w h
    unfold stepSlide at h
    rcases h1 : pyGetD slide "type" (.str "CONTENT") with e1 | v
    · rw [h1] at h; simp [bind, Except.bind] at h
    obtain ⟨gs, rfl⟩ : ∃ gs, slide = .obj gs := by
      rcases slide with s | n | b | _ | l | gs
      · simp [pyGetD] at h1
      · simp [pyGetD] at h1
      · simp [pyGetD] at h1
      · simp [pyGetD] at h1
      · simp [pyGetD] at h1
      · exact ⟨gs, rfl⟩
    rw [h1] at h
    simp only [bind, Except.bind] at h
    rcases h2 : pyUpper v with e2 | tag
    · rw [h2] at h; simp at h
    rw [h2] at h
    simp only at h
    rcases h3 : List.lookup tag BUILDERS with _ | builder
    · rw [h3] at h
      simp only at h
      rcases hlk : List.lookup "type" gs with _ | v0
      · have hv : v = .str "CONTENT" := by
          have := h1
          simp [pyGetD, hlk] at this
          exact this.symm
        subst hv
        have htag : tag = "CONTENT" := by
          have := h2
          simp [pyUpper] at this
          rw [← this]
          rfl
        subst htag
        simp [BUILDERS, List.lookup] at h3
      · refine ⟨gs, v0, tag, rfl, hlk, ?_, h3⟩
        have hv : v = v0 := by
          have := h1
          simp [pyGetD, hlk] at this
          exact this.symm
        rw [← hv]
        exact h2
    · rw [h3] at h
      simp only at h
      rcases h4 : builder ((List.lookup "content" gs).getD (.obj [])) i p f
        with e4 | html
      · rw [show pyGetD (Value.obj gs) "content" (.obj []) =
            .ok ((List.lookup "content" gs).getD (.obj [])) from rfl] at h
        simp only [bind, Except.bind] at h
        rw [h4] at h
        simp at h
      · rw [show pyGetD (Value.obj gs) "content" (.obj []) =
            .ok ((List.lookup "content" gs).getD (.obj [])) from rfl] at h
        simp only [bind, Except.bind] at h
        rw [h4] at h
        simp [pure, Except.pure] at h

/-- C10, witness: a slide with only a `content` field steps to a
rendered content slide. -/
theorem C10_witness :
    List.lookup "type" [("content", Value.obj [("heading", Value.str "H")])] = none ∧
    stepSlide "c" "g" (.str "T") (.obj []) (.obj []) 1
        (.obj [("content", .obj [("heading", .str "H")])]) 1 =
      (slide_content ((List.lookup "content"
          [("content", Value.obj [("heading", Value.str "H")])]).getD (.obj []))
          1 (.obj []) (.obj [])).map
        (fun html => .rendered
          (int02d 1 ++ "-" ++ pyReplace (strLower "CONTENT") "_" "-" ++ ".html")
          (make_page html "c" "g" (.str "T") 1 1)
          ⟨1, "CONTENT",
           int02d 1 ++ "-" ++ pyReplace (strLower "CONTENT") "_" "-" ++ ".html",
           "http://localhost:7890/slides/" ++
             (int02d 1 ++ "-" ++ pyReplace (strLower "CONTENT") "_" "-" ++ ".html")⟩) :=
  ⟨rfl, C10_absent_type_renders_content.1
    [("content", .obj [("heading", .str "H")])] "c" "g" (.str "T")
    (.obj []) (.obj []) 1 1 rfl⟩

end FigmaPpt
